import Mathlib

/-!
Verification development for the SymSPI driver core (src/symspi.c).

The driver's state machine, request arbitration, error ledger and
interrupt/callback glue are shallowly embedded as pure Lean functions over an
explicit device record.  Machine integers are modelled as `Nat`/`Int` with
explicit `% 2^32` (resp. `% 2^64`) where C unsigned wraparound can occur.
External collaborators (SPI bus layer, GPIO lines, workqueue, consumer
callbacks, the clock) are modelled as explicit inputs: fields of the device
record (`their_flag`, `spi_async_accepts`, `spi_msg_status`, `now_msec`) or
parameters of the functions that invoke consumer callbacks.  Deferred-work
enqueues, error-handler invocations and bus submissions are recorded in a
ghost event trace (`events`) so that theorems can speak about them.
-/

namespace Symspi

/-- The SymSPI state machine states (SYMSPI_STATE_* in symspi.c). -/
inductive SState
  | Cold
  | Idle
  | XferPrepare
  | WaitingPrev
  | WaitingRdy
  | Xfer
  | Postprocessing
  | Error
deriving DecidableEq

/- SymSPI error codes (symspi.h).  NO_MEMORY = ENOMEM = 12, OTHER_SIDE =
EPIPE = 32, NO_SPI = ENODEV = 19 on Linux. -/

def SYMSPI_SUCCESS : Nat := 0

def SYMSPI_ERROR_LOGICAL : Nat := 1

def SYMSPI_ERROR_XFER_SIZE_MISMATCH : Nat := 3

def SYMSPI_ERROR_XFER_SIZE_ZERO : Nat := 4

def SYMSPI_ERROR_NO_MEMORY : Nat := 12

def SYMSPI_ERROR_OTHER_SIDE : Nat := 32

def SYMSPI_ERROR_STATE : Nat := 8

def SYMSPI_ERROR_OVERLAP : Nat := 9

def SYMSPI_ERROR_SPI : Nat := 10

def SYMSPI_ERROR_NO_SPI : Nat := 19

def SYMSPI_ERROR_NO_GPIO : Nat := 12

def SYMSPI_ERROR_NO_XFER : Nat := 13

def SYMSPI_ERROR_IRQ_ACQUISITION : Nat := 14

def SYMSPI_ERROR_ISR_SETUP : Nat := 15

def SYMSPI_ERROR_WAIT_OTHER_SIDE : Nat := 16

def SYMSPI_ERROR_WORKQUEUE_INIT : Nat := 17

/-- Modelled from the spec: error codes declared in
`full_duplex_interface.h`, which is not under src/.  They are distinct
from every SYMSPI_ERROR_* code; concrete values are representative. -/
def FULL_DUPLEX_ERROR_NO_DEVICE_PROVIDED : Nat := 101

/-- Modelled from the spec: see `FULL_DUPLEX_ERROR_NO_DEVICE_PROVIDED`. -/
def FULL_DUPLEX_ERROR_NOT_READY : Nat := 102

/- Linux errno values used directly by symspi.c. -/

def ENODEV : Nat := 19

def EALREADY : Nat := 114

/- Build-time constants (symspi.c). -/

def SYMSPI_INITIAL_XFER_ID : Int := 1

def SYMSPI_PRIVATE_MAGIC : Nat := 0x0E31553B

def SYMSPI_MIN_ERR_REPORT_INTERVAL_MSEC : Nat := 10000

def SYMSPI_ERR_RATE_DECAY_RATE_MSEC_PER_HALF : Nat := 2000

def SYMSPI_ERR_RATE_DECAY_RATE_MIN : Nat := 3

def SYMSPI_INIT_LEVEL_FULL : Nat := 5

/-- Modulus of a C `unsigned int` (32-bit). -/
def UINT_MOD : Nat := 2 ^ 32

/-- Modulus of a C `unsigned long` (64-bit, as on the 64-bit builds). -/
def ULONG_MOD : Nat := 2 ^ 64

/-- Two's-complement wrap of a C `int` increment result. -/
def intWrap (n : Int) : Int := ((n + 2 ^ 31) % 2 ^ 32) - 2 ^ 31

/-- One error-history record (struct symspi_error_rec).  The `err_msg`
string is omitted: it only feeds log text. -/
structure SymspiErrorRec where
  err_num : Nat
  total_count : Nat
  unreported_count : Nat
  last_report_time_msec : Nat
  last_occurence_time_msec : Nat
  exp_avg_interval_msec : Nat
  last_reported : Bool
  err_per_sec_threshold : Nat
deriving DecidableEq

/-- One full-duplex transfer descriptor.  Modelled from the spec: `struct
full_duplex_xfer` is declared in `full_duplex_interface.h`, which is not
under src/; per spec §3 it holds a payload size, owned TX/RX buffers
(modelled as start addresses, 0 = NULL; allocation is modelled as always
succeeding), an id, a completed-transfers counter and done/fail callback
references (modelled as presence flags). -/
structure FullDuplexXfer where
  size_bytes : Nat
  data_tx : Nat
  data_rx_buf : Nat
  xfers_counter : Int
  id : Int
  has_done_callback : Bool
  has_fail_callback : Bool
deriving DecidableEq

/-- Ghost trace events: observable side effects of the embedded code.
`cas` records each executed atomic compare-exchange on the state word
(with the drop-counter value at that instant), `leaveXferSignal` a
`complete()` of the leave-XFER completion, `raiseError` an invocation of
the error handler `__symspi_error_handle_`, `scheduleRecover` /
`schedulePostprocessing` a workqueue enqueue, `busSubmit` a `spi_async`
call (with the drop-counter value at submission), `tryLeaveWaitingPrevCall`
an entry into `symspi_try_leave_waiting_prev_sequence`, and `errLog` a bare
`symspi_err` log line from the drop-counter anomaly branch. -/
inductive Event
  | cas (expected dst : SState) (ok : Bool) (dropAtCas : Int)
  | leaveXferSignal
  | raiseError (err_no : Nat) (sub_error_no : Int)
  | scheduleRecover
  | schedulePostprocessing
  | busSubmit (dropAtSubmit : Int)
  | tryLeaveWaitingPrevCall
  | errLog
deriving DecidableEq

/-- The SymSPI device model: the fields of `struct symspi_dev_private`
that the verified claims touch, together with the consumer-provided
configuration of `struct symspi_dev` (handle-validity booleans), the
environment inputs (`their_flag`, `spi_async_accepts`, `spi_msg_status`,
`now_msec`) and the ghost trace.  `error_handle_stuck` is a ghost marker
recording that the error-handler retry loop failed to make progress (the
C code would spin forever). -/
structure Dev where
  state : SState
  init_level : Nat
  magic : Nat
  close_request : Bool
  delayed_xfer_request : Bool
  their_flag_drop_counter : Int
  last_error : Nat
  next_xfer_id : Int
  current_xfer : FullDuplexXfer
  spi_xfer_len : Nat
  spi_msg_status : Int
  spi_master_mode : Bool
  hardware_spi_rdy : Bool
  our_flag : Bool
  their_flag : Bool
  spi_async_accepts : Bool
  timer_armed : Bool
  errors : List SymspiErrorRec
  xfers_done_ok : Nat
  other_side_indicated_errors : Nat
  other_side_no_reaction_errors : Nat
  their_flag_edges : Nat
  has_spi : Bool
  has_gpio_our : Bool
  has_gpio_their : Bool
  has_xfer_accepted_callback : Bool
  now_msec : Nat
  events : List Event
  error_handle_stuck : Bool
deriving DecidableEq

/-- Records a ghost event. -/
def pushEvent (d : Dev) (e : Event) : Dev := { d with events := e :: d.events }

/-- `__symspi_is_closing` (symspi.c:1765). -/
def symspi_is_closing (d : Dev) : Bool := d.close_request

/-- `symspi_switch_strict` (symspi.c:2374): atomic CAS on the state word.
While the closing latch is set, only an attempt with expected = XFER and
destination ≠ XFER executes the CAS, and it then fires the leave-XFER
completion and still returns false; every other attempt is refused with
no effect.  Executed CASes are recorded as ghost `cas` events. -/
def symspi_switch_strict (d : Dev) (expected_state dst_state : SState) :
    Bool × Dev :=
  if symspi_is_closing d then
    if expected_state ≠ SState.Xfer ∨ dst_state = SState.Xfer then
      (false, d)
    else
      let d1 := if d.state = expected_state then { d with state := dst_state }
                else d
      let d2 := pushEvent d1
        (Event.cas expected_state dst_state (d.state = expected_state)
          d.their_flag_drop_counter)
      (false, pushEvent d2 Event.leaveXferSignal)
  else
    if d.state = expected_state then
      (true, pushEvent { d with state := dst_state }
        (Event.cas expected_state dst_state true d.their_flag_drop_counter))
    else
      (false, pushEvent d
        (Event.cas expected_state dst_state false d.their_flag_drop_counter))

/-- `symspi_switch_state_val_forced` (symspi.c:2424): atomic exchange of
the state word; returns the old value. -/
def symspi_switch_state_val_forced (d : Dev) (dst_state : SState) :
    SState × Dev :=
  (d.state, { d with state := dst_state })

/- ------------------------- error ledger ------------------------------- -/

/-- `__symspi_get_error_rec` (symspi.c:1367): linear search of the error
record array for the first record with the given error number. -/
def symspi_get_error_rec (l : List SymspiErrorRec) (err_no : Nat) :
    Option SymspiErrorRec :=
  l.find? (fun r => r.err_num = err_no)

/-- In-place update of the first record with the given error number
(models the C write through the pointer that `__symspi_get_error_rec`
returned). -/
def replaceErrorRec (l : List SymspiErrorRec) (err_no : Nat)
    (e : SymspiErrorRec) : List SymspiErrorRec :=
  match l with
  | [] => []
  | r :: rest =>
      if r.err_num = err_no then e :: rest
      else r :: replaceErrorRec rest err_no e

/-- Absolute difference, as the C ternaries at symspi.c:1410-1417 compute
for the wrap-protected time deltas. -/
def absDiff (a b : Nat) : Nat := if b ≤ a then a - b else b - a

/-- Record-level body of `__symspi_error_report` (symspi.c:1406-1486):
given the record for the reported kind and the current time (the cast
`(uint32_t)(ktime ns / 1000000)`), updates the statistics and decides
whether to emit a log line (`true`) or suppress it (`false`).  All
intermediate arithmetic follows the C types: `since_*` and
`decay_percent` are `unsigned int` (mod 2^32), the smoothed-interval
update is computed in `unsigned long` (mod 2^64) and then cast back to
`unsigned int`. -/
def symspi_error_report_rec (e : SymspiErrorRec) (now_msec : Nat) :
    Bool × SymspiErrorRec :=
  let total_count' := (e.total_count + 1) % UINT_MOD
  let since_last_report_msec := absDiff now_msec e.last_report_time_msec
  let since_last_occurance_msec := absDiff now_msec e.last_occurence_time_msec
  let decay_percent :=
    max (min ((50 * since_last_occurance_msec % UINT_MOD)
                / SYMSPI_ERR_RATE_DECAY_RATE_MSEC_PER_HALF) 100)
        SYMSPI_ERR_RATE_DECAY_RATE_MIN
  let threshold := e.err_per_sec_threshold
  let prev_rate := 1000 / max (e.exp_avg_interval_msec % UINT_MOD) 1
  let exp_avg' :=
    max ((((100 - decay_percent) * e.exp_avg_interval_msec
            + decay_percent * since_last_occurance_msec) % ULONG_MOD / 100)
          % UINT_MOD)
        1
  let rate := 1000 / exp_avg'
  let e1 := { e with total_count := total_count'
                   , last_occurence_time_msec := now_msec
                   , exp_avg_interval_msec := exp_avg' }
  if since_last_report_msec < SYMSPI_MIN_ERR_REPORT_INTERVAL_MSEC
      ∧ ¬(prev_rate < threshold ∧ threshold ≤ rate) then
    (false, { e1 with unreported_count := (e1.unreported_count + 1) % UINT_MOD
                    , last_reported := false })
  else
    (true, { e1 with last_report_time_msec := now_msec
                   , last_reported := true
                   , unreported_count := 0 })

/-- `__symspi_error_report` (symspi.c:1394) at device level: looks up the
record for the kind (an unknown kind reports verbosely with no record
update) and applies `symspi_error_report_rec` at the device clock. -/
def symspi_error_report (d : Dev) (err_no : Nat) : Bool × Dev :=
  if d.magic ≠ SYMSPI_PRIVATE_MAGIC then (true, d)
  else
    match symspi_get_error_rec d.errors err_no with
    | none => (true, d)
    | some e =>
        let r := symspi_error_report_rec e d.now_msec
        (r.1, { d with errors := replaceErrorRec d.errors err_no r.2 })

/- ------------------------- error handler ------------------------------ -/

/-- Result of one iteration of the error-handler retry loop:
`done` leaves the loop, `again` retries. -/
inductive ErrHandleStep
  | done (d : Dev)
  | again (d : Dev)
deriving DecidableEq

/-- Tail of the XFER branch of `__symspi_error_handle_`
(symspi.c:1596-1607): record `last_error`, then CAS
POSTPROCESSING→ERROR (the state may have been advanced by the bus
completion callback in the meantime) and enqueue the recovery work if
that CAS succeeded. -/
def symspi_error_handle_xfer_tail (d : Dev) (err_no : Nat) : Dev :=
  let d1 := { d with last_error := err_no }
  let r := symspi_switch_strict d1 SState.Postprocessing SState.Error
  if r.1 then pushEvent r.2 Event.scheduleRecover else r.2

/-- One iteration of the retry loop of `__symspi_error_handle_`
(symspi.c:1574-1613).  The `||` chains of the C code short-circuit, so
each CAS is attempted only if the previous one failed. -/
def symspi_error_handle_body (d : Dev) (err_no : Nat) : ErrHandleStep :=
  let finish : Dev → ErrHandleStep := fun dd =>
    ErrHandleStep.done (pushEvent { dd with last_error := err_no }
      Event.scheduleRecover)
  let rI := symspi_switch_strict d SState.Idle SState.Error
  if rI.1 then finish rI.2 else
  let rP := symspi_switch_strict rI.2 SState.XferPrepare SState.Error
  if rP.1 then finish rP.2 else
  let rWP := symspi_switch_strict rP.2 SState.WaitingPrev SState.Error
  if rWP.1 then finish rWP.2 else
  let rWR := symspi_switch_strict rWP.2 SState.WaitingRdy SState.Error
  if rWR.1 then finish rWR.2 else
  let rPP := symspi_switch_strict rWR.2 SState.Postprocessing SState.Error
  if rPP.1 then finish rPP.2 else
  let rE := symspi_switch_strict rPP.2 SState.Error SState.Error
  if rE.1 then ErrHandleStep.done rE.2 else
  let rX := symspi_switch_strict rE.2 SState.Xfer SState.Xfer
  if rX.1 then
    ErrHandleStep.done (symspi_error_handle_xfer_tail rX.2 err_no)
  else
  let rC := symspi_switch_strict rX.2 SState.Cold SState.Cold
  if rC.1 then ErrHandleStep.done rC.2 else ErrHandleStep.again rC.2

/-- The `while (true)` retry loop of `__symspi_error_handle_`, with fuel.
Exhausted fuel marks the ghost `error_handle_stuck` flag: the C code
would spin forever from such a configuration. -/
def symspi_error_handle_loop : Nat → Dev → Nat → Dev
  | 0, d, _ => { d with error_handle_stuck := true }
  | fuel + 1, d, err_no =>
      match symspi_error_handle_body d err_no with
      | ErrHandleStep.done d' => d'
      | ErrHandleStep.again d' => symspi_error_handle_loop fuel d' err_no

/-- `__symspi_error_handle_` (symspi.c:1502): update the info counters,
run the rate-limited report, then walk the state machine into ERROR (or
defer, for XFER) via the retry loop.  The invocation itself is recorded
as a ghost `raiseError` event.  In a sequential (interference-free) run
the loop body terminates in its first iteration whenever it can make
progress, so fuel 2 is sufficient. -/
def symspi_error_handle_ (d : Dev) (err_no : Nat) (sub_error_no : Int) :
    Dev :=
  let d := pushEvent d (Event.raiseError err_no sub_error_no)
  if err_no = SYMSPI_SUCCESS then d
  else
    let d :=
      { d with
          other_side_indicated_errors :=
            if err_no = SYMSPI_ERROR_OTHER_SIDE then
              d.other_side_indicated_errors + 1
            else d.other_side_indicated_errors
        , other_side_no_reaction_errors :=
            if err_no = SYMSPI_ERROR_WAIT_OTHER_SIDE then
              d.other_side_no_reaction_errors + 1
            else d.other_side_no_reaction_errors }
    let d := (symspi_error_report d err_no).2
    symspi_error_handle_loop 2 d err_no

/-- `__symspi_other_side_wait_timeout` (symspi.c:1669): the timeout-timer
expiry handler raises WAIT_OTHER_SIDE. -/
def symspi_other_side_wait_timeout (d : Dev) : Dev :=
  if d.magic ≠ SYMSPI_PRIVATE_MAGIC then d
  else symspi_error_handle_ d SYMSPI_ERROR_WAIT_OTHER_SIDE 0

/-- `symspi_try_to_error_sequence` (symspi.c:2937): funnel into the error
handler when an internal error is given or the other side signalled an
error (drop counter > 1). -/
def symspi_try_to_error_sequence (d : Dev) (internal_error : Int) :
    Int × Dev :=
  let other_side_error := d.their_flag_drop_counter > 1
  if internal_error ≠ 0 ∨ other_side_error then
    let err_no : Nat :=
      if internal_error = 0 then SYMSPI_ERROR_OTHER_SIDE
      else (-internal_error).toNat
    let d := symspi_error_handle_ d err_no 0
    (-(err_no : Int), d)
  else (0, d)

/- --------------------- xfer / buffer manager -------------------------- -/

/-- `regions_overlap` (symspi.c:2168).  Buffers are modelled by their
start address; it is only called with `size_2 > 0` (the zero-size check
precedes it in `symspi_replace_xfer`). -/
def regions_overlap (r_1 : Nat) (size_1 : Nat) (r_2 : Nat) (size_2 : Nat) :
    Bool :=
  r_2 < r_1 + size_1 ∧ r_1 ≤ r_2 + size_2 - 1

/-- `symspi_do_resize_xfer` (symspi.c:2117).  Reallocation is modelled as
always succeeding in place (the out-of-memory path frees both buffers and
zeroes the size; it is kept for the explicit zero-size request). -/
def symspi_do_resize_xfer (x : FullDuplexXfer) (new_size_bytes : Nat) :
    FullDuplexXfer :=
  if x.size_bytes = new_size_bytes then x
  else if new_size_bytes = 0 then
    { x with size_bytes := 0, data_tx := 0, data_rx_buf := 0 }
  else
    { x with size_bytes := new_size_bytes }

/-- `symspi_do_update_native_spi_xfer_data` (symspi.c:2080): refreshes the
native SPI transfer descriptor from the current xfer (the consumer hook
configures fields the core is oblivious to and is not modelled). -/
def symspi_do_update_native_spi_xfer_data (d : Dev) : Dev :=
  { d with spi_xfer_len := d.current_xfer.size_bytes }

/-- `symspi_replace_xfer` (symspi.c:2219): validates the new xfer and
replaces the current one.  A size change is refused with
XFER_SIZE_MISMATCH whenever the state is not XFER and
`force_size_change` is false. -/
def symspi_replace_xfer (d : Dev) (new_xfer : FullDuplexXfer)
    (force_size_change : Bool) : Int × Dev :=
  let curr := d.current_xfer
  if new_xfer.size_bytes = 0 then
    (-(SYMSPI_ERROR_XFER_SIZE_ZERO : Int), d)
  else if regions_overlap curr.data_tx curr.size_bytes new_xfer.data_tx
      new_xfer.size_bytes then
    (-(SYMSPI_ERROR_OVERLAP : Int), d)
  else if curr.size_bytes ≠ new_xfer.size_bytes
      ∧ d.state ≠ SState.Xfer ∧ force_size_change = false then
    (-(SYMSPI_ERROR_XFER_SIZE_MISMATCH : Int), d)
  else
    let d := if curr.size_bytes ≠ new_xfer.size_bytes then
               { d with current_xfer :=
                   symspi_do_resize_xfer curr new_xfer.size_bytes }
             else d
    if d.current_xfer.size_bytes = 0 then
      (-(SYMSPI_ERROR_NO_MEMORY : Int), d)
    else
      let cx := { d.current_xfer with
                    id := new_xfer.id
                  , has_done_callback := new_xfer.has_done_callback
                  , has_fail_callback := new_xfer.has_fail_callback
                  , xfers_counter := new_xfer.xfers_counter }
      (0, symspi_do_update_native_spi_xfer_data { d with current_xfer := cx })

/-- `symspi_get_next_xfer_id` (symspi.c:2802): post-increment with wrap
around to the initial id when the fetched value is not positive. -/
def symspi_get_next_xfer_id (d : Dev) : Int × Dev :=
  let xfer_id := d.next_xfer_id
  let d := { d with next_xfer_id := intWrap (d.next_xfer_id + 1) }
  if xfer_id ≤ 0 then
    (SYMSPI_INITIAL_XFER_ID, { d with next_xfer_id := SYMSPI_INITIAL_XFER_ID + 1 })
  else (xfer_id, d)

/-- `symspi_inc_current_xfer_counter` (symspi.c:2814): saturating reset
to 1 on signed overflow. -/
def symspi_inc_current_xfer_counter (d : Dev) : Dev :=
  let c := intWrap (d.current_xfer.xfers_counter + 1)
  let c := if c < 0 then 1 else c
  { d with current_xfer := { d.current_xfer with xfers_counter := c } }

/- --------------------- flag lines and bus ----------------------------- -/

/-- `symspi_our_flag_set` (symspi.c:2648): drive our flag line to its
active level. -/
def symspi_our_flag_set (d : Dev) : Dev := { d with our_flag := true }

/-- `symspi_our_flag_drop` (symspi.c:2664): drive our flag line to its
inactive level. -/
def symspi_our_flag_drop (d : Dev) : Dev := { d with our_flag := false }

/-- `symspi_their_flag_is_set` (symspi.c:2677): read the peer flag line
(environment input). -/
def symspi_their_flag_is_set (d : Dev) : Bool := d.their_flag

/-- `symspi_is_their_request` (symspi.c:2340). -/
def symspi_is_their_request (d : Dev) : Bool :=
  d.their_flag_drop_counter = 1 ∧ symspi_their_flag_is_set d

/-- `symspi_do_xfer` (symspi.c:2473): atomically zero the drop counter,
then submit the SPI message asynchronously.  Whether `spi_async` accepts
the message is an environment input (`spi_async_accepts`); the submission
records a ghost `busSubmit` event carrying the drop-counter value at the
moment of the call. -/
def symspi_do_xfer (d : Dev) : Int × Dev :=
  let d1 := { d with their_flag_drop_counter := 0 }
  let d2 := pushEvent d1 (Event.busSubmit d1.their_flag_drop_counter)
  ((if d2.spi_async_accepts then 0 else -(SYMSPI_ERROR_SPI : Int)), d2)

/- ----------------- waiting-state leave sequences ---------------------- -/

/-- `symspi_try_leave_waiting_rdy_sequence` (symspi.c:2774): on CAS
WAITING_RDY→XFER, cancel the timeout and submit.  Master side only. -/
def symspi_try_leave_waiting_rdy_sequence (d : Dev) : Int × Dev :=
  let r := symspi_switch_strict d SState.WaitingRdy SState.Xfer
  if r.1 then symspi_do_xfer { r.2 with timer_armed := false }
  else (0, r.2)

/-- `symspi_try_leave_waiting_prev_sequence` (symspi.c:2714).  With
SYMSPI_DEBUG undefined the slave path performs no state switch: it stops
the timer and submits directly.  The entry is recorded as a ghost
`tryLeaveWaitingPrevCall` event. -/
def symspi_try_leave_waiting_prev_sequence (d : Dev) : Int × Dev :=
  let d := pushEvent d Event.tryLeaveWaitingPrevCall
  if d.spi_master_mode = false then
    symspi_do_xfer { d with timer_armed := false }
  else if d.hardware_spi_rdy then
    let r := symspi_switch_strict d SState.WaitingPrev SState.Xfer
    if r.1 then symspi_do_xfer { r.2 with timer_armed := false }
    else (0, r.2)
  else
    let r := symspi_switch_strict d SState.WaitingPrev SState.WaitingRdy
    if r.1 then
      let d := { r.2 with timer_armed := true }
      if symspi_is_their_request d then
        symspi_try_leave_waiting_rdy_sequence d
      else (0, d)
    else (0, r.2)

/-- `symspi_xfer_prepare_to_waiting_prev_sequence` (symspi.c:2037):
assert our flag, re-check for errors, CAS XFER_PREPARE→WAITING_PREV
(arming the timeout on success), then leave WAITING_PREV at once if the
peer already released (drop counter 1) or we are the slave. -/
def symspi_xfer_prepare_to_waiting_prev_sequence (d : Dev) : Int × Dev :=
  let d := symspi_our_flag_set d
  let t := symspi_try_to_error_sequence d 0
  if t.1 ≠ 0 then t
  else
    let r := symspi_switch_strict t.2 SState.XferPrepare SState.WaitingPrev
    let d := if r.1 then { r.2 with timer_armed := true } else r.2
    if d.their_flag_drop_counter = 1 ∨ d.spi_master_mode = false then
      symspi_try_leave_waiting_prev_sequence d
    else (0, d)

/- ----------------------- SPI bus callback ----------------------------- -/

/-- `symspi_spi_xfer_done_callback` (symspi.c:3213): CAS
XFER→POSTPROCESSING; on CAS failure raise LOGICAL; else hand a pending
`last_error` to the error handler; else raise SPI when the native message
status is non-zero; else count the transfer and enqueue postprocessing. -/
def symspi_spi_xfer_done_callback (d : Dev) : Dev :=
  let r := symspi_switch_strict d SState.Xfer SState.Postprocessing
  if r.1 = false then symspi_error_handle_ r.2 SYMSPI_ERROR_LOGICAL 0
  else if r.2.last_error ≠ SYMSPI_SUCCESS then
    symspi_error_handle_ r.2 r.2.last_error 0
  else if r.2.spi_msg_status ≠ 0 then
    symspi_error_handle_ r.2 SYMSPI_ERROR_SPI r.2.spi_msg_status
  else
    pushEvent { r.2 with xfers_done_ok := r.2.xfers_done_ok + 1 }
      Event.schedulePostprocessing

/- --------------------------- ISR section ------------------------------ -/

/-- `symspi_their_flag_drop_isr_sequence` (symspi.c:3323): atomically
increment the drop counter — the counter is a C `int` and
`__atomic_add_fetch` wraps two's-complement, hence `intWrap` — then on 1
(master) try to leave WAITING_PREV; on ≥ 2 raise OTHER_SIDE; on ≤ 0 emit
a bare error log line. -/
def symspi_their_flag_drop_isr_sequence (d : Dev) : Dev :=
  let counter := intWrap (d.their_flag_drop_counter + 1)
  let d := { d with their_flag_drop_counter := counter }
  if counter = 1 ∧ d.spi_master_mode then
    (symspi_try_leave_waiting_prev_sequence d).2
  else if 2 ≤ counter then
    symspi_error_handle_ d SYMSPI_ERROR_OTHER_SIDE 0
  else if counter ≤ 0 then
    pushEvent d Event.errLog
  else d

/- ------------------- request pipeline (fueled) ------------------------ -/

/-- `symspi_verify_consumer_input` (symspi.c:1924): handle and default
xfer validation.  The device pointer itself is valid by construction of
the model; the SPI/GPIO handle validity flags are passed in (they live on
`struct symspi_dev`, outside the private part). -/
def symspi_verify_consumer_input (has_spi has_gpio_our has_gpio_their : Bool)
    (xfer : Option FullDuplexXfer) (check_xfer : Bool) : Int :=
  if has_spi = false then -(SYMSPI_ERROR_NO_SPI : Int)
  else if has_gpio_our = false ∨ has_gpio_their = false then
    -( SYMSPI_ERROR_NO_GPIO : Int)
  else if check_xfer = false then 0
  else
    match xfer with
    | none => -(SYMSPI_ERROR_NO_XFER : Int)
    | some x =>
        if x.size_bytes = 0 then -(SYMSPI_ERROR_NO_XFER : Int)
        else if x.data_tx = 0 then -(SYMSPI_ERROR_NO_XFER : Int)
        else 0

/-- Outcome of a consumer done/fail callback: an error pointer (halt the
device), a replacement xfer, or NULL (keep the current one). -/
inductive ConsumerCbResult
  | errPtr
  | newXfer (x : FullDuplexXfer)
  | keep
deriving DecidableEq

/- The functions below form the request pipeline.  `symspi_to_idle_sequence`
can restart the pipeline, but the C code restarts only ever through
`symspi_data_xchange(symspi, NULL, false)`, and for a NULL xfer the inner
`symspi_update_xfer_sequence` returns without calling
`symspi_to_idle_sequence` again — so that restart instance is the
separate, non-recursive specialization `symspi_data_xchange_null` below,
which mirrors `symspi_data_xchange` (symspi.c:833) with its
`symspi_idle_to_xfer_prepare_sequence` call inlined at xfer = NULL. -/

/-- `symspi_data_xchange` (symspi.c:833) at xfer = NULL: the restart
entry used by `symspi_to_idle_sequence`.  The inlined
`symspi_idle_to_xfer_prepare_sequence` (symspi.c:1779) validates no xfer,
CASes IDLE→XFER_PREPARE and checks for pending errors; its
`symspi_update_xfer_sequence` step is the identity for a NULL xfer. -/
def symspi_data_xchange_null (d : Dev) : Int × Dev :=
  if symspi_is_closing d then (-(FULL_DUPLEX_ERROR_NOT_READY : Int), d)
  else
    let step : Int × Dev :=
      let res := symspi_verify_consumer_input d.has_spi d.has_gpio_our
        d.has_gpio_their none false
      if res ≠ 0 then (res, d)
      else
        let r := symspi_switch_strict d SState.Idle SState.XferPrepare
        if r.1 = false then (-(FULL_DUPLEX_ERROR_NOT_READY : Int), r.2)
        else symspi_try_to_error_sequence r.2 0
    if step.1 = -(FULL_DUPLEX_ERROR_NOT_READY : Int) then
      (-(FULL_DUPLEX_ERROR_NOT_READY : Int),
       { step.2 with delayed_xfer_request := true })
    else if step.1 ≠ 0 then step
    else symspi_xfer_prepare_to_waiting_prev_sequence step.2

/-- `symspi_to_idle_sequence` (symspi.c:2977): stop the timeout timer,
CAS back to IDLE, funnel a pending internal error, then restart the
pipeline (a NULL-xfer exchange) when a transfer request is pending or the
peer asks for one. -/
def symspi_to_idle_sequence (d : Dev) (original_state : SState)
    (start_next_xfer : Bool) (internal_error : Int) : Int × Dev :=
  let d := { d with timer_armed := false }
  let start1 := start_next_xfer || d.delayed_xfer_request
  let r := symspi_switch_strict d original_state SState.Idle
  let rest : Dev → Int × Dev := fun d =>
    let start2 := start1 || d.delayed_xfer_request
    let d := { d with delayed_xfer_request := false }
    if start2 || symspi_is_their_request d then
      symspi_data_xchange_null d
    else (0, d)
  if original_state ≠ SState.Error then
    let t := symspi_try_to_error_sequence r.2 internal_error
    if t.1 ≠ 0 then t else rest t.2
  else rest r.2

/-- `symspi_update_xfer_sequence` (symspi.c:2297): assign the new id and
replace the current xfer; on a replace failure that is neither LOGICAL
nor NO_MEMORY the error is downgraded to SUCCESS, and (outside ERROR)
the device is driven back to IDLE.  The possibly-updated consumer xfer is
returned alongside (the C code writes `xfer->id` in place). -/
def symspi_update_xfer_sequence (d : Dev)
    (xfer : Option FullDuplexXfer) (original_state : SState)
    (force_size_change : Bool) : Int × Dev × Option FullDuplexXfer :=
  match xfer with
  | none => (0, d, none)
  | some x =>
    let g := symspi_get_next_xfer_id d
    let x := { x with id := g.1, xfers_counter := 0 }
    let r := symspi_replace_xfer g.2 x force_size_change
    if r.1 ≠ 0 then
      let res := if r.1 ≠ -(SYMSPI_ERROR_LOGICAL : Int)
                    ∧ r.1 ≠ -(SYMSPI_ERROR_NO_MEMORY : Int) then 0 else r.1
      let d2 := if original_state ≠ SState.Error then
                  (symspi_to_idle_sequence r.2 original_state false res).2
                else r.2
      (res, d2, some x)
    else (r.1, r.2, some x)

/-- `symspi_idle_to_xfer_prepare_sequence` (symspi.c:1779): validate
input, CAS IDLE→XFER_PREPARE, check for pending errors, then install the
new xfer data. -/
def symspi_idle_to_xfer_prepare_sequence (d : Dev)
    (xfer : Option FullDuplexXfer) (force_size_change : Bool) :
    Int × Dev × Option FullDuplexXfer :=
  let res := symspi_verify_consumer_input d.has_spi d.has_gpio_our
    d.has_gpio_their xfer xfer.isSome
  if res ≠ 0 then (res, d, xfer)
  else
    let r := symspi_switch_strict d SState.Idle SState.XferPrepare
    if r.1 = false then (-(FULL_DUPLEX_ERROR_NOT_READY : Int), r.2, xfer)
    else
      let t := symspi_try_to_error_sequence r.2 0
      if t.1 ≠ 0 then (t.1, t.2, xfer)
      else symspi_update_xfer_sequence t.2 xfer SState.XferPrepare
             force_size_change

/-- `symspi_data_xchange` (symspi.c:833): the consumer entry point for
starting a transfer (with the current xfer when `xfer` is NULL). -/
def symspi_data_xchange (d : Dev)
    (xfer : Option FullDuplexXfer) (force_size_change : Bool) : Int × Dev :=
  if symspi_is_closing d then (-(FULL_DUPLEX_ERROR_NOT_READY : Int), d)
  else
    let p := symspi_idle_to_xfer_prepare_sequence d xfer force_size_change
    if p.1 = -(FULL_DUPLEX_ERROR_NOT_READY : Int) ∧ xfer = none then
      (-(FULL_DUPLEX_ERROR_NOT_READY : Int),
       { p.2.1 with delayed_xfer_request := true })
    else if p.1 ≠ 0 then (p.1, p.2.1)
    else
      let w := symspi_xfer_prepare_to_waiting_prev_sequence p.2.1
      match p.2.2 with
      | some x => if w.1 = 0 then (x.id, w.2) else w
      | none => w

/-- `symspi_default_data_update` (symspi.c:882): update the default TX
data without starting a transfer. -/
def symspi_default_data_update (d : Dev)
    (xfer : Option FullDuplexXfer) (force_size_change : Bool) : Int × Dev :=
  if symspi_is_closing d then (-(FULL_DUPLEX_ERROR_NOT_READY : Int), d)
  else
    let p := symspi_idle_to_xfer_prepare_sequence d xfer force_size_change
    if p.1 ≠ 0 then (p.1, p.2.1)
    else symspi_to_idle_sequence p.2.1 SState.XferPrepare false 0

/-- `symspi_postprocessing_sequence` (symspi.c:2833): deliver the
completed transfer to the consumer's done callback (its outcome and the
`start_immediately` flag it may set are the parameters), install a
returned replacement xfer, then drop our flag and return to IDLE. -/
def symspi_postprocessing_sequence (d : Dev)
    (done_cb_result : ConsumerCbResult) (start_immediately_set : Bool) :
    Dev :=
  if d.state ≠ SState.Postprocessing then d
  else
    let d := symspi_inc_current_xfer_counter d
    let next_xfer :=
      if d.current_xfer.has_done_callback then done_cb_result
      else ConsumerCbResult.keep
    let start_immediately :=
      if d.current_xfer.has_done_callback then start_immediately_set
      else false
    match next_xfer with
    | ConsumerCbResult.errPtr => d
    | ConsumerCbResult.newXfer x =>
        let u := symspi_update_xfer_sequence d (some x)
          SState.Postprocessing true
        if u.1 ≠ 0 then symspi_our_flag_drop u.2.1
        else
          let d := symspi_our_flag_drop u.2.1
          (symspi_to_idle_sequence d SState.Postprocessing
            start_immediately 0).2
    | ConsumerCbResult.keep =>
        let d := symspi_our_flag_drop d
        (symspi_to_idle_sequence d SState.Postprocessing
          start_immediately 0).2

/-- `symspi_recovery_sequence` (symspi.c:2535): drive the error pulse
train on our flag, consult the consumer's fail callback (its outcome is
the parameter), set the drop counter to 1, clear `last_error` and return
ERROR→IDLE with an immediate restart. -/
def symspi_recovery_sequence (d : Dev)
    (fail_cb_result : ConsumerCbResult) : Int × Dev :=
  if d.magic ≠ SYMSPI_PRIVATE_MAGIC then (-(ENODEV : Int), d)
  else if d.state ≠ SState.Error then (-(SYMSPI_ERROR_LOGICAL : Int), d)
  else
    let d := { d with timer_armed := false }
    let d := symspi_our_flag_drop d
    let d := symspi_our_flag_set d
    let d := symspi_our_flag_drop d
    let d := symspi_our_flag_set d
    let d := symspi_our_flag_drop d
    let next_xfer :=
      if d.current_xfer.has_fail_callback then fail_cb_result
      else ConsumerCbResult.keep
    let finish : Dev → Int × Dev := fun d =>
      let d := { d with their_flag_drop_counter := 1 }
      let d := { d with last_error := SYMSPI_SUCCESS }
      symspi_to_idle_sequence d SState.Error true 0
    match next_xfer with
    | ConsumerCbResult.errPtr => (0, d)
    | ConsumerCbResult.newXfer x =>
        let u := symspi_update_xfer_sequence d (some x)
          SState.Error true
        if u.1 ≠ 0 then (u.1, u.2.1)
        else finish u.2.1
    | ConsumerCbResult.keep => finish d

/- --------------------------- ISR dispatch ----------------------------- -/

/-- `symspi_their_flag_set_isr_sequence` (symspi.c:3373): rising edge of
the peer flag: start a peer-initiated transfer from IDLE, or (master
without hardware SPI_RDY) try to leave WAITING_RDY. -/
def symspi_their_flag_set_isr_sequence (d : Dev) : Dev :=
  let r := symspi_switch_strict d SState.Idle SState.XferPrepare
  if r.1 then (symspi_xfer_prepare_to_waiting_prev_sequence r.2).2
  else if r.2.spi_master_mode ∧ r.2.hardware_spi_rdy = false then
    (symspi_try_leave_waiting_rdy_sequence r.2).2
  else r.2

/-- `symspi_their_flag_isr` (symspi.c:3290): the single edge handler;
dispatches on the peer flag level observed after the edge. -/
def symspi_their_flag_isr (d : Dev) : Dev :=
  if d.state = SState.Cold then d
  else
    let d := if symspi_their_flag_is_set d then
               symspi_their_flag_set_isr_sequence d
             else symspi_their_flag_drop_isr_sequence d
    { d with their_flag_edges := d.their_flag_edges + 1 }

/- ------------------------- init and close ----------------------------- -/

/-- `struct symspi_dev` as handed in by the consumer: handle-validity
flags and the private part pointer (`p = NULL` before init). -/
structure SymspiOuter where
  has_spi : Bool
  has_gpio_our : Bool
  has_gpio_their : Bool
  has_xfer_accepted_callback : Bool
  p : Option Dev
deriving DecidableEq

/-- `__symspi_error_report_init` (symspi.c:1330): the 15 error-history
records with their rate thresholds (private-workqueue build). -/
def mkErrRec (err_num threshold : Nat) : SymspiErrorRec :=
  { err_num := err_num
  , total_count := 0
  , unreported_count := 0
  , last_report_time_msec := 0
  , last_occurence_time_msec := 0
  , exp_avg_interval_msec := 0
  , last_reported := false
  , err_per_sec_threshold := threshold }

/-- The freshly initialized error ledger (symspi.c:1341-1357). -/
def symspi_error_report_init_recs : List SymspiErrorRec :=
  [ mkErrRec SYMSPI_ERROR_LOGICAL 0
  , mkErrRec SYMSPI_ERROR_XFER_SIZE_MISMATCH 0
  , mkErrRec SYMSPI_ERROR_XFER_SIZE_ZERO 0
  , mkErrRec SYMSPI_ERROR_NO_MEMORY 0
  , mkErrRec SYMSPI_ERROR_OTHER_SIDE 5
  , mkErrRec SYMSPI_ERROR_STATE 0
  , mkErrRec SYMSPI_ERROR_OVERLAP 0
  , mkErrRec SYMSPI_ERROR_SPI 0
  , mkErrRec SYMSPI_ERROR_NO_SPI 0
  , mkErrRec SYMSPI_ERROR_NO_GPIO 0
  , mkErrRec SYMSPI_ERROR_NO_XFER 0
  , mkErrRec SYMSPI_ERROR_IRQ_ACQUISITION 0
  , mkErrRec SYMSPI_ERROR_ISR_SETUP 0
  , mkErrRec SYMSPI_ERROR_WAIT_OTHER_SIDE 5
  , mkErrRec SYMSPI_ERROR_WORKQUEUE_INIT 0 ]

/-- Model addresses of the freshly allocated TX/RX buffers of the deep
copy that `symspi_xfer_init_copy` makes of the consumer's default xfer. -/
def SYMSPI_MODEL_TX_ALLOC : Nat := 2 ^ 40

/-- See `SYMSPI_MODEL_TX_ALLOC`. -/
def SYMSPI_MODEL_RX_ALLOC : Nat := 2 ^ 41

/-- `symspi_init` (symspi.c:944).  External-resource acquisition (memory,
workqueue, GPIO IRQ) is modelled as succeeding; the role flag, the
SPI_RDY capability bit, the peer flag level and the bus-acceptance
environment input parameterize the fresh device.  A device whose private
part already carries the valid magic is reused unchanged.  Note that
`symspi_xfer_init_copy` (symspi.c:1824) copies the done callback and the
consumer handle but not the fail callback. -/
def symspi_init (o : SymspiOuter) (default_xfer : Option FullDuplexXfer)
    (spi_master_mode hardware_spi_rdy their_flag spi_async_accepts : Bool)
    (now_msec : Nat) : Int × SymspiOuter :=
  let res := symspi_verify_consumer_input o.has_spi o.has_gpio_our
    o.has_gpio_their default_xfer true
  if res ≠ 0 then (res, o)
  else
    let already_initialized : Bool :=
      match o.p with
      | some p => p.magic == SYMSPI_PRIVATE_MAGIC
      | none => false
    if already_initialized then (0, o)
    else
    match default_xfer with
    | none => (-(SYMSPI_ERROR_NO_XFER : Int), o)   -- dead: verify rejected it
    | some dx =>
        let cx : FullDuplexXfer :=
          { size_bytes := dx.size_bytes
          , data_tx := SYMSPI_MODEL_TX_ALLOC
          , data_rx_buf := SYMSPI_MODEL_RX_ALLOC
          , xfers_counter := 0
          , id := SYMSPI_INITIAL_XFER_ID
          , has_done_callback := dx.has_done_callback
          , has_fail_callback := false }
        let d : Dev :=
          { state := SState.Idle
          , init_level := SYMSPI_INIT_LEVEL_FULL
          , magic := SYMSPI_PRIVATE_MAGIC
          , close_request := false
          , delayed_xfer_request := false
          , their_flag_drop_counter := 1
          , last_error := SYMSPI_SUCCESS
          , next_xfer_id := SYMSPI_INITIAL_XFER_ID + 1
          , current_xfer := cx
          , spi_xfer_len := dx.size_bytes
          , spi_msg_status := 0
          , spi_master_mode := spi_master_mode
          , hardware_spi_rdy := hardware_spi_rdy
          , our_flag := false
          , their_flag := their_flag
          , spi_async_accepts := spi_async_accepts
          , timer_armed := false
          , errors := symspi_error_report_init_recs
          , xfers_done_ok := 0
          , other_side_indicated_errors := 0
          , other_side_no_reaction_errors := 0
          , their_flag_edges := 0
          , has_spi := o.has_spi
          , has_gpio_our := o.has_gpio_our
          , has_gpio_their := o.has_gpio_their
          , has_xfer_accepted_callback := o.has_xfer_accepted_callback
          , now_msec := now_msec
          , events := []
          , error_handle_stuck := false }
        let d := if symspi_their_flag_is_set d then
                   (symspi_data_xchange d none false).2
                 else d
        (0, { o with p := some d })

/-- `symspi_close` (symspi.c:1106): latch the closing flag by CAS (a
second caller gets -EALREADY), then run the ordered teardown, ending with
the private part freed (p = NULL).  The bounded wait for an in-flight
XFER and the ISR/timer/workqueue teardown have no observable effect on
the freed state and are elided; a latch on an already-COLD device returns
success without teardown. -/
def symspi_close (o : SymspiOuter) : Int × SymspiOuter :=
  match o.p with
  | none => (-(ENODEV : Int), o)
  | some d =>
    if d.magic ≠ SYMSPI_PRIVATE_MAGIC then (-(ENODEV : Int), o)
    else if d.close_request then (-(EALREADY : Int), o)
    else
      let d := { d with close_request := true }
      if d.state = SState.Cold then (0, { o with p := some d })
      else (0, { o with p := none })

/-- `symspi_is_running` (symspi.c:1248). -/
def symspi_is_running (o : SymspiOuter) : Bool :=
  match o.p with
  | none => false
  | some d => d.state ≠ SState.Cold

/- --------------------- concrete test devices -------------------------- -/

/-- Builds a transfer descriptor with the given size, buffer addresses
and id. -/
def mkXfer (size tx rx : Nat) (idv : Int) : FullDuplexXfer :=
  { size_bytes := size
  , data_tx := tx
  , data_rx_buf := rx
  , xfers_counter := 0
  , id := idv
  , has_done_callback := true
  , has_fail_callback := false }

/-- A healthy initialized master device in IDLE with a 64-byte default
xfer, the peer released (drop counter 1) and an empty trace: the state a
device is in right after a quiet `symspi_init`. -/
def idleDev : Dev :=
  { state := SState.Idle
  , init_level := SYMSPI_INIT_LEVEL_FULL
  , magic := SYMSPI_PRIVATE_MAGIC
  , close_request := false
  , delayed_xfer_request := false
  , their_flag_drop_counter := 1
  , last_error := SYMSPI_SUCCESS
  , next_xfer_id := 2
  , current_xfer := mkXfer 64 4096 8192 1
  , spi_xfer_len := 64
  , spi_msg_status := 0
  , spi_master_mode := true
  , hardware_spi_rdy := true
  , our_flag := false
  , their_flag := false
  , spi_async_accepts := true
  , timer_armed := false
  , errors := symspi_error_report_init_recs
  , xfers_done_ok := 0
  , other_side_indicated_errors := 0
  , other_side_no_reaction_errors := 0
  , their_flag_edges := 0
  , has_spi := true
  , has_gpio_our := true
  , has_gpio_their := true
  , has_xfer_accepted_callback := false
  , now_msec := 0
  , events := []
  , error_handle_stuck := false }

/-- A consumer handle with valid SPI/GPIO pointers whose private part is
still NULL: the argument of a first `symspi_init`. -/
def freshOuter : SymspiOuter :=
  { has_spi := true
  , has_gpio_our := true
  , has_gpio_their := true
  , has_xfer_accepted_callback := false
  , p := none }

/- --------------------- trace observables ------------------------------ -/

/-- Recognizes error-handler invocation events. -/
def isRaiseError : Event → Bool
  | Event.raiseError _ _ => true
  | _ => false

/-- Recognizes recovery-work enqueue events. -/
def isScheduleRecover : Event → Bool
  | Event.scheduleRecover => true
  | _ => false

/-- Recognizes postprocessing-work enqueue events. -/
def isSchedulePostprocessing : Event → Bool
  | Event.schedulePostprocessing => true
  | _ => false

/-- Recognizes leave-XFER completion signals. -/
def isLeaveXferSignal : Event → Bool
  | Event.leaveXferSignal => true
  | _ => false

/-- Recognizes bus submissions. -/
def isBusSubmit : Event → Bool
  | Event.busSubmit _ => true
  | _ => false

/-- Recognizes entries into the leave-WAITING_PREV sequence. -/
def isTryLeaveWaitingPrev : Event → Bool
  | Event.tryLeaveWaitingPrevCall => true
  | _ => false

/-- Recognizes bare anomaly log lines. -/
def isErrLog : Event → Bool
  | Event.errLog => true
  | _ => false

/-- The subtrace of error-handler invocations, newest first. -/
def raisesOf (l : List Event) : List Event := l.filter isRaiseError

/-- Spec-side definition, following the claim's words: α = clamp(⌊(50·Δt)
/ decay_half⌋, 3, 100) in exact integer arithmetic (no 32-bit wrap). -/
def specAlpha (dt : Nat) : Nat :=
  max (min ((50 * dt) / SYMSPI_ERR_RATE_DECAY_RATE_MSEC_PER_HALF) 100)
      SYMSPI_ERR_RATE_DECAY_RATE_MIN

/-- Spec-side definition, following the claim's words: interval' =
max(((100 − α)·interval + α·Δt) / 100, 1) with `specAlpha`. -/
def specInterval (interval dt : Nat) : Nat :=
  max (((100 - specAlpha dt) * interval + specAlpha dt * dt) / 100) 1

/-- The code's decay percentage: like `specAlpha` but with the product
`50 * Δt` wrapped to 32 bits, as the `unsigned int` arithmetic of
symspi.c:1423 computes it. -/
def codeAlpha (dt : Nat) : Nat :=
  max (min ((50 * dt % UINT_MOD)
        / SYMSPI_ERR_RATE_DECAY_RATE_MSEC_PER_HALF) 100)
      SYMSPI_ERR_RATE_DECAY_RATE_MIN

/-- The smoothed-interval update the code performs (for in-range
operands): the claim's formula with `codeAlpha` in place of `specAlpha`. -/
def codeInterval (interval dt : Nat) : Nat :=
  max (((100 - codeAlpha dt) * interval + codeAlpha dt * dt) / 100) 1

/-- A valid outer device wrapping `idleDev`, for the close/init claims. -/
def idleOuter : SymspiOuter :=
  { has_spi := true
  , has_gpio_our := true
  , has_gpio_their := true
  , has_xfer_accepted_callback := false
  , p := some idleDev }

/- --------------------- helper lemmas ---------------------------------- -/

/- `symspi_error_report` rewrites only the error ledger; the following
projection lemmas let proofs look through it. -/

@[simp] theorem symspi_error_report_state (d : Dev) (e : Nat) :
    (symspi_error_report d e).2.state = d.state := by
  unfold symspi_error_report
  split
  · rfl
  · split <;> rfl

@[simp] theorem symspi_error_report_init_level (d : Dev) (e : Nat) :
    (symspi_error_report d e).2.init_level = d.init_level := by
  unfold symspi_error_report
  split
  · rfl
  · split <;> rfl

@[simp] theorem symspi_error_report_magic (d : Dev) (e : Nat) :
    (symspi_error_report d e).2.magic = d.magic := by
  unfold symspi_error_report
  split
  · rfl
  · split <;> rfl

@[simp] theorem symspi_error_report_close_request (d : Dev) (e : Nat) :
    (symspi_error_report d e).2.close_request = d.close_request := by
  unfold symspi_error_report
  split
  · rfl
  · split <;> rfl

@[simp] theorem symspi_error_report_delayed_xfer_request (d : Dev) (e : Nat) :
    (symspi_error_report d e).2.delayed_xfer_request = d.delayed_xfer_request := by
  unfold symspi_error_report
  split
  · rfl
  · split <;> rfl

@[simp] theorem symspi_error_report_their_flag_drop_counter (d : Dev) (e : Nat) :
    (symspi_error_report d e).2.their_flag_drop_counter = d.their_flag_drop_counter := by
  unfold symspi_error_report
  split
  · rfl
  · split <;> rfl

@[simp] theorem symspi_error_report_last_error (d : Dev) (e : Nat) :
    (symspi_error_report d e).2.last_error = d.last_error := by
  unfold symspi_error_report
  split
  · rfl
  · split <;> rfl

@[simp] theorem symspi_error_report_next_xfer_id (d : Dev) (e : Nat) :
    (symspi_error_report d e).2.next_xfer_id = d.next_xfer_id := by
  unfold symspi_error_report
  split
  · rfl
  · split <;> rfl

@[simp] theorem symspi_error_report_current_xfer (d : Dev) (e : Nat) :
    (symspi_error_report d e).2.current_xfer = d.current_xfer := by
  unfold symspi_error_report
  split
  · rfl
  · split <;> rfl

@[simp] theorem symspi_error_report_spi_xfer_len (d : Dev) (e : Nat) :
    (symspi_error_report d e).2.spi_xfer_len = d.spi_xfer_len := by
  unfold symspi_error_report
  split
  · rfl
  · split <;> rfl

@[simp] theorem symspi_error_report_spi_msg_status (d : Dev) (e : Nat) :
    (symspi_error_report d e).2.spi_msg_status = d.spi_msg_status := by
  unfold symspi_error_report
  split
  · rfl
  · split <;> rfl

@[simp] theorem symspi_error_report_spi_master_mode (d : Dev) (e : Nat) :
    (symspi_error_report d e).2.spi_master_mode = d.spi_master_mode := by
  unfold symspi_error_report
  split
  · rfl
  · split <;> rfl

@[simp] theorem symspi_error_report_hardware_spi_rdy (d : Dev) (e : Nat) :
    (symspi_error_report d e).2.hardware_spi_rdy = d.hardware_spi_rdy := by
  unfold symspi_error_report
  split
  · rfl
  · split <;> rfl

@[simp] theorem symspi_error_report_our_flag (d : Dev) (e : Nat) :
    (symspi_error_report d e).2.our_flag = d.our_flag := by
  unfold symspi_error_report
  split
  · rfl
  · split <;> rfl

@[simp] theorem symspi_error_report_their_flag (d : Dev) (e : Nat) :
    (symspi_error_report d e).2.their_flag = d.their_flag := by
  unfold symspi_error_report
  split
  · rfl
  · split <;> rfl

@[simp] theorem symspi_error_report_spi_async_accepts (d : Dev) (e : Nat) :
    (symspi_error_report d e).2.spi_async_accepts = d.spi_async_accepts := by
  unfold symspi_error_report
  split
  · rfl
  · split <;> rfl

@[simp] theorem symspi_error_report_timer_armed (d : Dev) (e : Nat) :
    (symspi_error_report d e).2.timer_armed = d.timer_armed := by
  unfold symspi_error_report
  split
  · rfl
  · split <;> rfl

@[simp] theorem symspi_error_report_xfers_done_ok (d : Dev) (e : Nat) :
    (symspi_error_report d e).2.xfers_done_ok = d.xfers_done_ok := by
  unfold symspi_error_report
  split
  · rfl
  · split <;> rfl

@[simp] theorem symspi_error_report_their_flag_edges (d : Dev) (e : Nat) :
    (symspi_error_report d e).2.their_flag_edges = d.their_flag_edges := by
  unfold symspi_error_report
  split
  · rfl
  · split <;> rfl

@[simp] theorem symspi_error_report_has_spi (d : Dev) (e : Nat) :
    (symspi_error_report d e).2.has_spi = d.has_spi := by
  unfold symspi_error_report
  split
  · rfl
  · split <;> rfl

@[simp] theorem symspi_error_report_has_gpio_our (d : Dev) (e : Nat) :
    (symspi_error_report d e).2.has_gpio_our = d.has_gpio_our := by
  unfold symspi_error_report
  split
  · rfl
  · split <;> rfl

@[simp] theorem symspi_error_report_has_gpio_their (d : Dev) (e : Nat) :
    (symspi_error_report d e).2.has_gpio_their = d.has_gpio_their := by
  unfold symspi_error_report
  split
  · rfl
  · split <;> rfl

@[simp] theorem symspi_error_report_has_xfer_accepted_callback (d : Dev) (e : Nat) :
    (symspi_error_report d e).2.has_xfer_accepted_callback = d.has_xfer_accepted_callback := by
  unfold symspi_error_report
  split
  · rfl
  · split <;> rfl

@[simp] theorem symspi_error_report_now_msec (d : Dev) (e : Nat) :
    (symspi_error_report d e).2.now_msec = d.now_msec := by
  unfold symspi_error_report
  split
  · rfl
  · split <;> rfl

@[simp] theorem symspi_error_report_events (d : Dev) (e : Nat) :
    (symspi_error_report d e).2.events = d.events := by
  unfold symspi_error_report
  split
  · rfl
  · split <;> rfl

@[simp] theorem symspi_error_report_error_handle_stuck (d : Dev) (e : Nat) :
    (symspi_error_report d e).2.error_handle_stuck = d.error_handle_stuck := by
  unfold symspi_error_report
  split
  · rfl
  · split <;> rfl

/- `symspi_switch_strict` touches only the state word and the ghost
trace; projection lemmas for every other field. -/

@[simp] theorem symspi_switch_strict_init_level (d : Dev) (e t : SState) :
    (symspi_switch_strict d e t).2.init_level = d.init_level := by
  unfold symspi_switch_strict symspi_is_closing pushEvent
  split_ifs <;> rfl

@[simp] theorem symspi_switch_strict_magic (d : Dev) (e t : SState) :
    (symspi_switch_strict d e t).2.magic = d.magic := by
  unfold symspi_switch_strict symspi_is_closing pushEvent
  split_ifs <;> rfl

@[simp] theorem symspi_switch_strict_close_request (d : Dev) (e t : SState) :
    (symspi_switch_strict d e t).2.close_request = d.close_request := by
  unfold symspi_switch_strict symspi_is_closing pushEvent
  split_ifs <;> rfl

@[simp] theorem symspi_switch_strict_delayed_xfer_request (d : Dev) (e t : SState) :
    (symspi_switch_strict d e t).2.delayed_xfer_request = d.delayed_xfer_request := by
  unfold symspi_switch_strict symspi_is_closing pushEvent
  split_ifs <;> rfl

@[simp] theorem symspi_switch_strict_their_flag_drop_counter (d : Dev) (e t : SState) :
    (symspi_switch_strict d e t).2.their_flag_drop_counter = d.their_flag_drop_counter := by
  unfold symspi_switch_strict symspi_is_closing pushEvent
  split_ifs <;> rfl

@[simp] theorem symspi_switch_strict_last_error (d : Dev) (e t : SState) :
    (symspi_switch_strict d e t).2.last_error = d.last_error := by
  unfold symspi_switch_strict symspi_is_closing pushEvent
  split_ifs <;> rfl

@[simp] theorem symspi_switch_strict_next_xfer_id (d : Dev) (e t : SState) :
    (symspi_switch_strict d e t).2.next_xfer_id = d.next_xfer_id := by
  unfold symspi_switch_strict symspi_is_closing pushEvent
  split_ifs <;> rfl

@[simp] theorem symspi_switch_strict_current_xfer (d : Dev) (e t : SState) :
    (symspi_switch_strict d e t).2.current_xfer = d.current_xfer := by
  unfold symspi_switch_strict symspi_is_closing pushEvent
  split_ifs <;> rfl

@[simp] theorem symspi_switch_strict_spi_xfer_len (d : Dev) (e t : SState) :
    (symspi_switch_strict d e t).2.spi_xfer_len = d.spi_xfer_len := by
  unfold symspi_switch_strict symspi_is_closing pushEvent
  split_ifs <;> rfl

@[simp] theorem symspi_switch_strict_spi_msg_status (d : Dev) (e t : SState) :
    (symspi_switch_strict d e t).2.spi_msg_status = d.spi_msg_status := by
  unfold symspi_switch_strict symspi_is_closing pushEvent
  split_ifs <;> rfl

@[simp] theorem symspi_switch_strict_spi_master_mode (d : Dev) (e t : SState) :
    (symspi_switch_strict d e t).2.spi_master_mode = d.spi_master_mode := by
  unfold symspi_switch_strict symspi_is_closing pushEvent
  split_ifs <;> rfl

@[simp] theorem symspi_switch_strict_hardware_spi_rdy (d : Dev) (e t : SState) :
    (symspi_switch_strict d e t).2.hardware_spi_rdy = d.hardware_spi_rdy := by
  unfold symspi_switch_strict symspi_is_closing pushEvent
  split_ifs <;> rfl

@[simp] theorem symspi_switch_strict_our_flag (d : Dev) (e t : SState) :
    (symspi_switch_strict d e t).2.our_flag = d.our_flag := by
  unfold symspi_switch_strict symspi_is_closing pushEvent
  split_ifs <;> rfl

@[simp] theorem symspi_switch_strict_their_flag (d : Dev) (e t : SState) :
    (symspi_switch_strict d e t).2.their_flag = d.their_flag := by
  unfold symspi_switch_strict symspi_is_closing pushEvent
  split_ifs <;> rfl

@[simp] theorem symspi_switch_strict_spi_async_accepts (d : Dev) (e t : SState) :
    (symspi_switch_strict d e t).2.spi_async_accepts = d.spi_async_accepts := by
  unfold symspi_switch_strict symspi_is_closing pushEvent
  split_ifs <;> rfl

@[simp] theorem symspi_switch_strict_timer_armed (d : Dev) (e t : SState) :
    (symspi_switch_strict d e t).2.timer_armed = d.timer_armed := by
  unfold symspi_switch_strict symspi_is_closing pushEvent
  split_ifs <;> rfl

@[simp] theorem symspi_switch_strict_errors (d : Dev) (e t : SState) :
    (symspi_switch_strict d e t).2.errors = d.errors := by
  unfold symspi_switch_strict symspi_is_closing pushEvent
  split_ifs <;> rfl

@[simp] theorem symspi_switch_strict_xfers_done_ok (d : Dev) (e t : SState) :
    (symspi_switch_strict d e t).2.xfers_done_ok = d.xfers_done_ok := by
  unfold symspi_switch_strict symspi_is_closing pushEvent
  split_ifs <;> rfl

@[simp] theorem symspi_switch_strict_their_flag_edges (d : Dev) (e t : SState) :
    (symspi_switch_strict d e t).2.their_flag_edges = d.their_flag_edges := by
  unfold symspi_switch_strict symspi_is_closing pushEvent
  split_ifs <;> rfl

@[simp] theorem symspi_switch_strict_has_spi (d : Dev) (e t : SState) :
    (symspi_switch_strict d e t).2.has_spi = d.has_spi := by
  unfold symspi_switch_strict symspi_is_closing pushEvent
  split_ifs <;> rfl

@[simp] theorem symspi_switch_strict_has_gpio_our (d : Dev) (e t : SState) :
    (symspi_switch_strict d e t).2.has_gpio_our = d.has_gpio_our := by
  unfold symspi_switch_strict symspi_is_closing pushEvent
  split_ifs <;> rfl

@[simp] theorem symspi_switch_strict_has_gpio_their (d : Dev) (e t : SState) :
    (symspi_switch_strict d e t).2.has_gpio_their = d.has_gpio_their := by
  unfold symspi_switch_strict symspi_is_closing pushEvent
  split_ifs <;> rfl

@[simp] theorem symspi_switch_strict_has_xfer_accepted_callback (d : Dev) (e t : SState) :
    (symspi_switch_strict d e t).2.has_xfer_accepted_callback = d.has_xfer_accepted_callback := by
  unfold symspi_switch_strict symspi_is_closing pushEvent
  split_ifs <;> rfl

@[simp] theorem symspi_switch_strict_now_msec (d : Dev) (e t : SState) :
    (symspi_switch_strict d e t).2.now_msec = d.now_msec := by
  unfold symspi_switch_strict symspi_is_closing pushEvent
  split_ifs <;> rfl

@[simp] theorem symspi_switch_strict_error_handle_stuck (d : Dev) (e t : SState) :
    (symspi_switch_strict d e t).2.error_handle_stuck = d.error_handle_stuck := by
  unfold symspi_switch_strict symspi_is_closing pushEvent
  split_ifs <;> rfl

/-- Events appended by `symspi_switch_strict` are `cas` and
`leaveXferSignal` records only: any event predicate refusing those is
unaffected. -/
theorem symspi_switch_strict_countP (d : Dev) (e t : SState)
    (p : Event → Bool) (hc : ∀ a b ok c, p (Event.cas a b ok c) = false)
    (hl : p Event.leaveXferSignal = false) :
    (symspi_switch_strict d e t).2.events.countP p = d.events.countP p := by
  unfold symspi_switch_strict symspi_is_closing pushEvent
  split_ifs <;> simp [List.countP_cons, hc, hl]

/-- Filter version of `symspi_switch_strict_countP`. -/
theorem symspi_switch_strict_filter (d : Dev) (e t : SState)
    (p : Event → Bool) (hc : ∀ a b ok c, p (Event.cas a b ok c) = false)
    (hl : p Event.leaveXferSignal = false) :
    (symspi_switch_strict d e t).2.events.filter p = d.events.filter p := by
  unfold symspi_switch_strict symspi_is_closing pushEvent
  split_ifs <;> simp [List.filter_cons, hc, hl]

/-- C4 (on the spec claim "switch_strict under the closing latch"): while
the closing latch is set, `symspi_switch_strict` never changes the state
except from XFER to a non-XFER destination: every call with expected
state ≠ XFER or destination = XFER returns false and leaves the device —
in particular the state word — unchanged, and every call with expected =
XFER and destination ≠ XFER performs the compare-and-swap on the state
word and fires the leave-XFER completion signal. -/
theorem symspi_c4_switch_strict_closing (d : Dev) (e t : SState)
    (hclose : d.close_request = true) :
    ((e ≠ SState.Xfer ∨ t = SState.Xfer) →
      symspi_switch_strict d e t = (false, d))
    ∧ (e = SState.Xfer → t ≠ SState.Xfer →
      (symspi_switch_strict d e t).1 = false
      ∧ (symspi_switch_strict d e t).2.state =
          (if d.state = SState.Xfer then t else d.state)
      ∧ (symspi_switch_strict d e t).2.events.countP isLeaveXferSignal
          = d.events.countP isLeaveXferSignal + 1) := by
  constructor
  · intro h
    unfold symspi_switch_strict symspi_is_closing
    simp [hclose, h]
  · intro he ht
    subst he
    unfold symspi_switch_strict symspi_is_closing
    by_cases hs : d.state = SState.Xfer <;>
      simp [hclose, ht, hs, pushEvent, List.countP_cons, isLeaveXferSignal]

/-- Witness for C4 at a concrete closing device. -/
theorem symspi_c4_switch_strict_closing_witness :
    ({ idleDev with close_request := true } : Dev).close_request = true
    ∧ symspi_switch_strict { idleDev with close_request := true }
        SState.Idle SState.Error
      = (false, { idleDev with close_request := true }) :=
  ⟨rfl, (symspi_c4_switch_strict_closing _ SState.Idle SState.Error rfl).1
      (Or.inl (by decide))⟩

/-- The error-handler retry loop makes no progress at all on a closing
device: for every fuel it ends in the stuck marker with the device state
unchanged (the C `while (true)` loop never exits once `close_request` is
set, whatever the state). -/
theorem symspi_error_handle_loop_closing_stuck (fuel : Nat) (d : Dev)
    (err : Nat) (hclose : d.close_request = true) :
    symspi_error_handle_loop fuel d err
      = { d with error_handle_stuck := true } := by
  induction fuel generalizing d with
  | zero => rfl
  | succ n ih =>
      have hbody : symspi_error_handle_body d err = ErrHandleStep.again d := by
        unfold symspi_error_handle_body symspi_switch_strict symspi_is_closing
        simp [hclose]
      rw [symspi_error_handle_loop, hbody]
      exact ih d hclose

/-- C2 (amended): while the closing latch is clear the bus-completion
callback routes as the claim states: it CAS-switches
XFER→POSTPROCESSING; if that CAS fails it raises LOGICAL and returns;
otherwise a pending `last_error` is handed to the error handler;
otherwise a non-zero native message status raises SPI with that status
as sub-code; otherwise the xfers-done-ok counter is incremented and the
postprocessing work is enqueued.  With the closing latch set and the
state XFER — the close-during-transfer scenario — the CAS executes the
transition to POSTPROCESSING and fires the leave-XFER completion signal
but reports failure, so the callback raises LOGICAL instead of counting
the transfer and enqueueing postprocessing.  Raised errors are the
`raiseError` events of the trace. -/
theorem symspi_c2_xfer_done_callback_dispatch (d : Dev) :
    (d.close_request = false →
    (d.state = SState.Xfer → d.last_error = SYMSPI_SUCCESS →
        d.spi_msg_status = 0 →
      (symspi_spi_xfer_done_callback d).state = SState.Postprocessing
      ∧ (symspi_spi_xfer_done_callback d).xfers_done_ok = d.xfers_done_ok + 1
      ∧ (symspi_spi_xfer_done_callback d).events.countP
          isSchedulePostprocessing
          = d.events.countP isSchedulePostprocessing + 1
      ∧ raisesOf (symspi_spi_xfer_done_callback d).events
          = raisesOf d.events)
    ∧ (d.state = SState.Xfer → d.last_error ≠ SYMSPI_SUCCESS →
      raisesOf (symspi_spi_xfer_done_callback d).events
          = Event.raiseError d.last_error 0 :: raisesOf d.events
      ∧ (symspi_spi_xfer_done_callback d).events.countP
          isSchedulePostprocessing
          = d.events.countP isSchedulePostprocessing
      ∧ (symspi_spi_xfer_done_callback d).xfers_done_ok = d.xfers_done_ok)
    ∧ (d.state = SState.Xfer → d.last_error = SYMSPI_SUCCESS →
        d.spi_msg_status ≠ 0 →
      raisesOf (symspi_spi_xfer_done_callback d).events
          = Event.raiseError SYMSPI_ERROR_SPI d.spi_msg_status
              :: raisesOf d.events
      ∧ (symspi_spi_xfer_done_callback d).events.countP
          isSchedulePostprocessing
          = d.events.countP isSchedulePostprocessing
      ∧ (symspi_spi_xfer_done_callback d).xfers_done_ok = d.xfers_done_ok)
    ∧ (d.state ≠ SState.Xfer →
      raisesOf (symspi_spi_xfer_done_callback d).events
          = Event.raiseError SYMSPI_ERROR_LOGICAL 0 :: raisesOf d.events
      ∧ (symspi_spi_xfer_done_callback d).events.countP
          isSchedulePostprocessing
          = d.events.countP isSchedulePostprocessing
      ∧ (symspi_spi_xfer_done_callback d).xfers_done_ok = d.xfers_done_ok))
    ∧ (d.close_request = true → d.state = SState.Xfer →
      (symspi_spi_xfer_done_callback d).state = SState.Postprocessing
      ∧ (symspi_spi_xfer_done_callback d).events.countP isLeaveXferSignal
          = d.events.countP isLeaveXferSignal + 1
      ∧ raisesOf (symspi_spi_xfer_done_callback d).events
          = Event.raiseError SYMSPI_ERROR_LOGICAL 0 :: raisesOf d.events
      ∧ (symspi_spi_xfer_done_callback d).events.countP
          isSchedulePostprocessing
          = d.events.countP isSchedulePostprocessing
      ∧ (symspi_spi_xfer_done_callback d).xfers_done_ok
          = d.xfers_done_ok) := by
  refine ⟨fun hclose => ⟨?_, ?_, ?_, ?_⟩, ?_⟩
  · intro hs hle hst
    simp only [SYMSPI_SUCCESS] at hle
    unfold symspi_spi_xfer_done_callback
    simp [symspi_switch_strict, symspi_is_closing, hclose, hs, hle, hst,
      pushEvent, raisesOf, isRaiseError, isSchedulePostprocessing,
      List.countP_cons, List.filter_cons, SYMSPI_SUCCESS]
  · intro hs hle
    simp only [SYMSPI_SUCCESS] at hle
    unfold symspi_spi_xfer_done_callback
    simp [symspi_switch_strict, symspi_is_closing, hclose, hs, hle,
      pushEvent, symspi_error_handle_, symspi_error_handle_loop,
      symspi_error_handle_body, symspi_error_handle_xfer_tail,
      raisesOf, isRaiseError, isSchedulePostprocessing,
      List.countP_cons, List.filter_cons, SYMSPI_SUCCESS]
  · intro hs hle hst
    simp only [SYMSPI_SUCCESS] at hle
    unfold symspi_spi_xfer_done_callback
    simp [symspi_switch_strict, symspi_is_closing, hclose, hs, hle, hst,
      pushEvent, symspi_error_handle_, symspi_error_handle_loop,
      symspi_error_handle_body, symspi_error_handle_xfer_tail,
      raisesOf, isRaiseError, isSchedulePostprocessing,
      List.countP_cons, List.filter_cons, SYMSPI_SUCCESS,
      SYMSPI_ERROR_SPI, SYMSPI_ERROR_OTHER_SIDE,
      SYMSPI_ERROR_WAIT_OTHER_SIDE]
  · intro hs
    unfold symspi_spi_xfer_done_callback
    cases hstate : d.state <;> try exact absurd hstate hs
    all_goals
      simp [symspi_switch_strict, symspi_is_closing, hclose, hstate,
        pushEvent, symspi_error_handle_, symspi_error_handle_loop,
        symspi_error_handle_body, symspi_error_handle_xfer_tail,
        raisesOf, isRaiseError, isSchedulePostprocessing,
        List.countP_cons, List.filter_cons, SYMSPI_SUCCESS,
        SYMSPI_ERROR_LOGICAL, SYMSPI_ERROR_OTHER_SIDE,
        SYMSPI_ERROR_WAIT_OTHER_SIDE]
  · intro hclose hs
    unfold symspi_spi_xfer_done_callback
    simp [symspi_switch_strict, symspi_is_closing, hclose, hs,
      symspi_error_handle_, symspi_error_handle_loop_closing_stuck,
      pushEvent, raisesOf, isRaiseError, isLeaveXferSignal,
      isSchedulePostprocessing, List.countP_cons, List.filter_cons,
      SYMSPI_SUCCESS, SYMSPI_ERROR_LOGICAL]

/-- C2 counterexample: a bus completion arriving while the closing latch
is set — the close-during-transfer scenario, where the spec guarantees
the callback still runs.  The CAS does move the state
XFER→POSTPROCESSING and fires the leave-XFER completion signal, yet
`symspi_switch_strict` reports failure, so the callback raises LOGICAL
and neither counts the transfer nor enqueues the postprocessing work —
the claimed dispatch fails at this reachable configuration. -/
theorem symspi_c2_closing_completion_misroutes :
    (symspi_spi_xfer_done_callback
        { idleDev with state := SState.Xfer, close_request := true }).state
      = SState.Postprocessing
    ∧ (symspi_spi_xfer_done_callback
        { idleDev with state := SState.Xfer, close_request := true
          }).events.countP isLeaveXferSignal = 1
    ∧ raisesOf (symspi_spi_xfer_done_callback
        { idleDev with state := SState.Xfer, close_request := true
          }).events
      = [Event.raiseError SYMSPI_ERROR_LOGICAL 0]
    ∧ (symspi_spi_xfer_done_callback
        { idleDev with state := SState.Xfer, close_request := true
          }).events.countP isSchedulePostprocessing = 0
    ∧ (symspi_spi_xfer_done_callback
        { idleDev with state := SState.Xfer, close_request := true
          }).xfers_done_ok
      = ({ idleDev with state := SState.Xfer, close_request := true
          } : Dev).xfers_done_ok := by
  refine ⟨by decide, by decide, by decide, by decide, by decide⟩

/-- Witness for the amended C2 at the quiet-success configuration: a
device in XFER with the latch clear, no pending error and native status
0. -/
theorem symspi_c2_xfer_done_callback_dispatch_witness :
    (symspi_spi_xfer_done_callback { idleDev with state := SState.Xfer }).state
        = SState.Postprocessing
    ∧ (symspi_spi_xfer_done_callback
        { idleDev with state := SState.Xfer }).xfers_done_ok
        = ({ idleDev with state := SState.Xfer } : Dev).xfers_done_ok + 1 :=
  let h := ((symspi_c2_xfer_done_callback_dispatch
    { idleDev with state := SState.Xfer }).1 rfl).1 rfl rfl rfl
  ⟨h.1, h.2.1⟩

/-- C3 counterexample: with the closing latch set the claim fails at a
concrete device observed in IDLE: the handler performs no CAS to ERROR
(state stays IDLE), records no `last_error`, enqueues no recovery work,
and the retry loop makes no progress — the ghost stuck marker is set
because every strict CAS is refused while closing, so the C loop would
spin forever. -/
theorem symspi_c3_closing_latch_spins :
    (symspi_error_handle_ { idleDev with close_request := true }
        SYMSPI_ERROR_OTHER_SIDE 0).state = SState.Idle
    ∧ (symspi_error_handle_ { idleDev with close_request := true }
        SYMSPI_ERROR_OTHER_SIDE 0).last_error = SYMSPI_SUCCESS
    ∧ (symspi_error_handle_ { idleDev with close_request := true }
        SYMSPI_ERROR_OTHER_SIDE 0).events.countP isScheduleRecover = 0
    ∧ (symspi_error_handle_ { idleDev with close_request := true }
        SYMSPI_ERROR_OTHER_SIDE 0).error_handle_stuck = true := by
  decide

/-- C3 (amended): while the closing latch is NOT set, the error handler
routes as the claim states: active states are CAS-switched to ERROR with
`last_error` recorded and recovery enqueued; COLD and ERROR are left
untouched with nothing enqueued; XFER records `last_error` and (in an
interference-free run) enqueues nothing, while the deferral tail —
applied to whatever the device looks like at the secondary CAS — enqueues
recovery exactly when the state has advanced to POSTPROCESSING; and the
retry loop terminates (no stuck marker). -/
theorem symspi_c3_error_handler_routes (d : Dev) (err : Nat)
    (hclose : d.close_request = false) (herr : err ≠ SYMSPI_SUCCESS) :
    ((d.state = SState.Idle ∨ d.state = SState.XferPrepare
        ∨ d.state = SState.WaitingPrev ∨ d.state = SState.WaitingRdy
        ∨ d.state = SState.Postprocessing) →
      (symspi_error_handle_ d err 0).state = SState.Error
      ∧ (symspi_error_handle_ d err 0).last_error = err
      ∧ (symspi_error_handle_ d err 0).events.countP isScheduleRecover
          = d.events.countP isScheduleRecover + 1)
    ∧ ((d.state = SState.Cold ∨ d.state = SState.Error) →
      (symspi_error_handle_ d err 0).state = d.state
      ∧ (symspi_error_handle_ d err 0).last_error = d.last_error
      ∧ (symspi_error_handle_ d err 0).events.countP isScheduleRecover
          = d.events.countP isScheduleRecover)
    ∧ (d.state = SState.Xfer →
      (symspi_error_handle_ d err 0).state = SState.Xfer
      ∧ (symspi_error_handle_ d err 0).last_error = err
      ∧ (symspi_error_handle_ d err 0).events.countP isScheduleRecover
          = d.events.countP isScheduleRecover)
    ∧ (∀ d2 : Dev, d2.close_request = false →
      (symspi_error_handle_xfer_tail d2 err).events.countP isScheduleRecover
          = d2.events.countP isScheduleRecover
            + (if d2.state = SState.Postprocessing then 1 else 0)
      ∧ (symspi_error_handle_xfer_tail d2 err).last_error = err
      ∧ (symspi_error_handle_xfer_tail d2 err).state =
          (if d2.state = SState.Postprocessing then SState.Error
           else d2.state))
    ∧ (symspi_error_handle_ d err 0).error_handle_stuck
        = d.error_handle_stuck := by
  simp only [SYMSPI_SUCCESS] at herr
  refine ⟨?_, ?_, ?_, ?_, ?_⟩
  · intro hs
    rcases hs with hs | hs | hs | hs | hs <;>
      simp [symspi_error_handle_, symspi_error_handle_loop,
        symspi_error_handle_body, symspi_error_handle_xfer_tail,
        symspi_switch_strict, symspi_is_closing, hclose, hs, herr,
        pushEvent, isScheduleRecover, List.countP_cons, SYMSPI_SUCCESS]
  · intro hs
    rcases hs with hs | hs <;>
      simp [symspi_error_handle_, symspi_error_handle_loop,
        symspi_error_handle_body, symspi_error_handle_xfer_tail,
        symspi_switch_strict, symspi_is_closing, hclose, hs, herr,
        pushEvent, isScheduleRecover, List.countP_cons, SYMSPI_SUCCESS]
  · intro hs
    simp [symspi_error_handle_, symspi_error_handle_loop,
      symspi_error_handle_body, symspi_error_handle_xfer_tail,
      symspi_switch_strict, symspi_is_closing, hclose, hs, herr,
      pushEvent, isScheduleRecover, List.countP_cons, SYMSPI_SUCCESS]
  · intro d2 hclose2
    by_cases hs2 : d2.state = SState.Postprocessing <;>
      simp [symspi_error_handle_xfer_tail, symspi_switch_strict,
        symspi_is_closing, hclose2, hs2, pushEvent, isScheduleRecover,
        List.countP_cons]
  · cases hstate : d.state <;>
      simp [symspi_error_handle_, symspi_error_handle_loop,
        symspi_error_handle_body, symspi_error_handle_xfer_tail,
        symspi_switch_strict, symspi_is_closing, hclose, hstate, herr,
        pushEvent, SYMSPI_SUCCESS]

/-- Witness for the amended C3 at a concrete healthy IDLE device. -/
theorem symspi_c3_error_handler_routes_witness :
    (symspi_error_handle_ idleDev SYMSPI_ERROR_OTHER_SIDE 0).state
        = SState.Error
    ∧ (symspi_error_handle_ idleDev SYMSPI_ERROR_OTHER_SIDE 0).last_error
        = SYMSPI_ERROR_OTHER_SIDE :=
  let h := (symspi_c3_error_handler_routes idleDev SYMSPI_ERROR_OTHER_SIDE
    rfl (by decide)).1 (Or.inl rfl)
  ⟨h.1, h.2.1⟩

/-- C5 counterexample: at Δt = 85899346 ms the product 50·Δt =
4294967300 exceeds 2^32, so the C code computes α = 3 where the claim's
exact formula gives α = 100, and the updated smoothed interval of a
fresh OTHER_SIDE record is 2576980 instead of the claim's 85899346. -/
theorem symspi_c5_alpha_wrap_counterexample :
    (symspi_error_report_rec (mkErrRec SYMSPI_ERROR_OTHER_SIDE 5)
        85899346).2.exp_avg_interval_msec = 2576980
    ∧ specInterval (mkErrRec SYMSPI_ERROR_OTHER_SIDE 5).exp_avg_interval_msec
        85899346 = 85899346
    ∧ (symspi_error_report_rec (mkErrRec SYMSPI_ERROR_OTHER_SIDE 5)
        85899346).2.exp_avg_interval_msec
      ≠ specInterval
          (mkErrRec SYMSPI_ERROR_OTHER_SIDE 5).exp_avg_interval_msec
          85899346 := by
  refine ⟨by decide, by decide, by decide⟩

/-- For a weight A ≤ 100 and 32-bit-range operands, the two casts in the
smoothed-interval update are lossless: the weighted sum stays below 2^64
and its quotient by 100 below 2^32. -/
theorem report_interval_mod_eq (A I dt : Nat) (hA : A ≤ 100)
    (hI : I < UINT_MOD) (hdt : dt < UINT_MOD) :
    ((100 - A) * I + A * dt) % ULONG_MOD / 100 % UINT_MOD
      = ((100 - A) * I + A * dt) / 100 := by
  have hsum_le : (100 - A) * I + A * dt ≤ 100 * max I dt := by
    have b1 : (100 - A) * I ≤ (100 - A) * max I dt :=
      Nat.mul_le_mul_left _ (le_max_left _ _)
    have b2 : A * dt ≤ A * max I dt :=
      Nat.mul_le_mul_left _ (le_max_right _ _)
    calc (100 - A) * I + A * dt
        ≤ (100 - A) * max I dt + A * max I dt := add_le_add b1 b2
      _ = ((100 - A) + A) * max I dt := by ring
      _ ≤ 100 * max I dt := Nat.mul_le_mul_right _ (by omega)
  have hmax : max I dt < UINT_MOD := max_lt hI hdt
  have hsum_lt : (100 - A) * I + A * dt < ULONG_MOD := by
    calc (100 - A) * I + A * dt ≤ 100 * max I dt := hsum_le
      _ < 100 * UINT_MOD := by
          exact Nat.mul_lt_mul_of_le_of_lt (le_refl 100) hmax (by norm_num)
      _ < ULONG_MOD := by norm_num [UINT_MOD, ULONG_MOD]
  have hdiv_le : ((100 - A) * I + A * dt) / 100 ≤ max I dt := by
    have h := Nat.div_le_div_right (c := 100) hsum_le
    simpa [Nat.mul_div_cancel_left _ (by norm_num : (0 : Nat) < 100)] using h
  rw [Nat.mod_eq_of_lt hsum_lt, Nat.mod_eq_of_lt (lt_of_le_of_lt hdiv_le hmax)]

/-- C5 (amended): for operands in 32-bit range (as the code maintains
them), one error report updates the record as the claim states except
that α is computed from (50·Δt) mod 2^32 (`codeAlpha`): the smoothed
interval becomes `codeInterval`, the rate is 1000 divided by it, and the
report is suppressed — suppressed-since counter incremented, "no log"
returned — exactly when less than 10000 ms passed since the last report
and the rate did not cross the per-kind threshold from below to
at-or-above; otherwise the report timestamp is updated and the
suppressed-since counter zeroed.  Δt is the (wrap-protected) absolute
difference between now and the last occurrence, which is also updated. -/
theorem symspi_c5_error_report_update (e : SymspiErrorRec) (now : Nat)
    (hI : e.exp_avg_interval_msec < UINT_MOD)
    (hO : e.last_occurence_time_msec < UINT_MOD)
    (hN : now < UINT_MOD)
    (hU : e.unreported_count + 1 < UINT_MOD) :
    (symspi_error_report_rec e now).2.exp_avg_interval_msec
        = codeInterval e.exp_avg_interval_msec
            (absDiff now e.last_occurence_time_msec)
    ∧ ((symspi_error_report_rec e now).1 = false ↔
        (absDiff now e.last_report_time_msec
            < SYMSPI_MIN_ERR_REPORT_INTERVAL_MSEC
          ∧ ¬(1000 / max e.exp_avg_interval_msec 1 < e.err_per_sec_threshold
              ∧ e.err_per_sec_threshold
                  ≤ 1000 / codeInterval e.exp_avg_interval_msec
                      (absDiff now e.last_occurence_time_msec))))
    ∧ ((symspi_error_report_rec e now).1 = false →
        (symspi_error_report_rec e now).2.unreported_count
            = e.unreported_count + 1
        ∧ (symspi_error_report_rec e now).2.last_report_time_msec
            = e.last_report_time_msec)
    ∧ ((symspi_error_report_rec e now).1 = true →
        (symspi_error_report_rec e now).2.unreported_count = 0
        ∧ (symspi_error_report_rec e now).2.last_report_time_msec = now)
    ∧ (symspi_error_report_rec e now).2.last_occurence_time_msec = now := by
  have hdt : absDiff now e.last_occurence_time_msec < UINT_MOD := by
    unfold absDiff
    split <;> omega
  have hAle : ∀ x : Nat,
      max (min x 100) SYMSPI_ERR_RATE_DECAY_RATE_MIN ≤ 100 := fun x =>
    max_le (min_le_right _ _) (by norm_num [SYMSPI_ERR_RATE_DECAY_RATE_MIN])
  simp only [symspi_error_report_rec, codeInterval, codeAlpha]
  rw [report_interval_mod_eq _ _ _ (hAle _) hI hdt, Nat.mod_eq_of_lt hI,
    Nat.mod_eq_of_lt hU]
  split_ifs with hcond
  · refine ⟨rfl, ?_, ?_, ?_, rfl⟩
    · simpa using hcond
    · intro
      exact ⟨rfl, rfl⟩
    · intro h
      exact absurd h (by simp)
  · refine ⟨rfl, ?_, ?_, ?_, rfl⟩
    · simpa using hcond
    · intro h
      exact absurd h (by simp)
    · intro
      exact ⟨rfl, rfl⟩

/-- Witness for the amended C5 at a concrete record (fresh WAIT_OTHER_SIDE
record, second occurrence at 500 ms). -/
theorem symspi_c5_error_report_update_witness :
    (symspi_error_report_rec (mkErrRec SYMSPI_ERROR_WAIT_OTHER_SIDE 5)
        500).2.exp_avg_interval_msec
      = codeInterval
          (mkErrRec SYMSPI_ERROR_WAIT_OTHER_SIDE 5).exp_avg_interval_msec
          (absDiff 500
            (mkErrRec SYMSPI_ERROR_WAIT_OTHER_SIDE 5).last_occurence_time_msec)
    ∧ (symspi_error_report_rec (mkErrRec SYMSPI_ERROR_WAIT_OTHER_SIDE 5)
        500).2.last_occurence_time_msec = 500 :=
  let h := symspi_c5_error_report_update
    (mkErrRec SYMSPI_ERROR_WAIT_OTHER_SIDE 5) 500
    (by decide) (by decide) (by decide) (by decide)
  ⟨h.1, h.2.2.2.2⟩

/-- C6 counterexample: when the incremented drop counter is ≤ 0 the
handler does NOT raise the Logical error (or any error): at a concrete
master device whose counter was -1, the dispatch only appends a bare
error-log line; no `raiseError` event is produced and no recovery is
enqueued.  And the increment is a 32-bit two's-complement add: at a
device whose counter is INT_MAX = 2^31 - 1 the new value wraps to
INT_MIN = -2^31, so again only the log line is emitted — although the
exact (unbounded) value old + 1 = 2^31 is ≥ 2, no OTHER_SIDE is
raised. -/
theorem symspi_c6_nonpositive_counter_only_logs :
    ((symspi_their_flag_drop_isr_sequence
        { idleDev with their_flag_drop_counter := -1 }).their_flag_drop_counter
      = 0
    ∧ raisesOf (symspi_their_flag_drop_isr_sequence
        { idleDev with their_flag_drop_counter := -1 }).events = []
    ∧ (symspi_their_flag_drop_isr_sequence
        { idleDev with their_flag_drop_counter := -1 }).events
      = [Event.errLog]
    ∧ (symspi_their_flag_drop_isr_sequence
        { idleDev with their_flag_drop_counter := -1 }).state = SState.Idle)
    ∧ ((symspi_their_flag_drop_isr_sequence
        { idleDev with their_flag_drop_counter := 2 ^ 31 - 1
          }).their_flag_drop_counter = -(2 ^ 31)
    ∧ raisesOf (symspi_their_flag_drop_isr_sequence
        { idleDev with their_flag_drop_counter := 2 ^ 31 - 1 }).events = []
    ∧ (symspi_their_flag_drop_isr_sequence
        { idleDev with their_flag_drop_counter := 2 ^ 31 - 1 }).events
      = [Event.errLog]) := by
  refine ⟨by decide, by decide, by decide, by decide⟩

/-- The error handler records exactly one `raiseError` event — its own
invocation. -/
theorem symspi_error_handle_raises (d : Dev) (err : Nat) (sub : Int) :
    raisesOf (symspi_error_handle_ d err sub).events
      = Event.raiseError err sub :: raisesOf d.events := by
  by_cases herr : err = SYMSPI_SUCCESS
  · simp [symspi_error_handle_, herr, pushEvent, raisesOf, isRaiseError,
      List.filter_cons]
  · simp only [SYMSPI_SUCCESS] at herr
    by_cases hclose : d.close_request
    · have := symspi_error_handle_loop_closing_stuck 2
      simp [symspi_error_handle_, symspi_error_handle_loop_closing_stuck,
        hclose, herr, pushEvent, raisesOf, isRaiseError, List.filter_cons,
        SYMSPI_SUCCESS]
    · cases hstate : d.state <;>
        simp [symspi_error_handle_, symspi_error_handle_loop,
          symspi_error_handle_body, symspi_error_handle_xfer_tail,
          symspi_switch_strict, symspi_is_closing, hclose, hstate, herr,
          pushEvent, raisesOf, isRaiseError, List.filter_cons,
          SYMSPI_SUCCESS]

/-- The error handler never touches the drop counter. -/
theorem symspi_error_handle_drop_counter (d : Dev) (err : Nat) (sub : Int) :
    (symspi_error_handle_ d err sub).their_flag_drop_counter
      = d.their_flag_drop_counter := by
  by_cases herr : err = SYMSPI_SUCCESS
  · simp [symspi_error_handle_, herr, pushEvent]
  · simp only [SYMSPI_SUCCESS] at herr
    by_cases hclose : d.close_request
    · simp [symspi_error_handle_, symspi_error_handle_loop_closing_stuck,
        hclose, herr, pushEvent, SYMSPI_SUCCESS]
    · cases hstate : d.state <;>
        simp [symspi_error_handle_, symspi_error_handle_loop,
          symspi_error_handle_body, symspi_error_handle_xfer_tail,
          symspi_switch_strict, symspi_is_closing, hclose, hstate, herr,
          pushEvent, SYMSPI_SUCCESS]

/-- The error handler appends only `raiseError`, `cas`, `leaveXferSignal`
and `scheduleRecover` events: any count of events outside those kinds is
unchanged. -/
theorem symspi_error_handle_countP (d : Dev) (err : Nat) (sub : Int)
    (p : Event → Bool)
    (hr : ∀ e s, p (Event.raiseError e s) = false)
    (hc : ∀ a b ok c, p (Event.cas a b ok c) = false)
    (hl : p Event.leaveXferSignal = false)
    (hrec : p Event.scheduleRecover = false) :
    (symspi_error_handle_ d err sub).events.countP p
      = d.events.countP p := by
  by_cases herr : err = SYMSPI_SUCCESS
  · simp [symspi_error_handle_, herr, pushEvent, List.countP_cons, hr]
  · simp only [SYMSPI_SUCCESS] at herr
    by_cases hclose : d.close_request
    · simp [symspi_error_handle_, symspi_error_handle_loop_closing_stuck,
        hclose, herr, pushEvent, List.countP_cons, hr, SYMSPI_SUCCESS]
    · cases hstate : d.state <;>
        simp [symspi_error_handle_, symspi_error_handle_loop,
          symspi_error_handle_body, symspi_error_handle_xfer_tail,
          symspi_switch_strict, symspi_is_closing, hclose, hstate, herr,
          pushEvent, List.countP_cons, hr, hc, hl, hrec, SYMSPI_SUCCESS]

/-- `symspi_do_xfer` appends one `busSubmit` event. -/
theorem symspi_do_xfer_countP (d : Dev) (p : Event → Bool)
    (hb : ∀ c, p (Event.busSubmit c) = false) :
    (symspi_do_xfer d).2.events.countP p = d.events.countP p := by
  simp [symspi_do_xfer, pushEvent, List.countP_cons, hb]

/-- `symspi_try_leave_waiting_rdy_sequence` appends only `cas` and
`busSubmit` events. -/
theorem symspi_try_leave_waiting_rdy_countP (d : Dev) (p : Event → Bool)
    (hb : ∀ c, p (Event.busSubmit c) = false)
    (hc : ∀ a b ok c, p (Event.cas a b ok c) = false)
    (hl : p Event.leaveXferSignal = false) :
    (symspi_try_leave_waiting_rdy_sequence d).2.events.countP p
      = d.events.countP p := by
  unfold symspi_try_leave_waiting_rdy_sequence
  by_cases hclose : d.close_request <;>
    by_cases hs : d.state = SState.WaitingRdy <;>
      simp [symspi_switch_strict, symspi_is_closing, symspi_do_xfer,
        hclose, hs, pushEvent, List.countP_cons, hb, hc, hl]

/-- `symspi_try_leave_waiting_prev_sequence` appends exactly one
`tryLeaveWaitingPrevCall` event besides `cas` and `busSubmit` records. -/
theorem symspi_try_leave_waiting_prev_countP (d : Dev) (p : Event → Bool)
    (hb : ∀ c, p (Event.busSubmit c) = false)
    (hc : ∀ a b ok c, p (Event.cas a b ok c) = false)
    (hl : p Event.leaveXferSignal = false) :
    (symspi_try_leave_waiting_prev_sequence d).2.events.countP p
      = d.events.countP p
        + (if p Event.tryLeaveWaitingPrevCall then 1 else 0) := by
  unfold symspi_try_leave_waiting_prev_sequence
  by_cases hm : d.spi_master_mode <;>
    by_cases hrdy : d.hardware_spi_rdy <;>
      by_cases hclose : d.close_request <;>
        by_cases hs : d.state = SState.WaitingPrev <;>
          simp [symspi_switch_strict, symspi_is_closing, symspi_do_xfer,
            symspi_try_leave_waiting_rdy_sequence, symspi_is_their_request,
            symspi_their_flag_is_set, hm, hrdy, hclose, hs, pushEvent,
            List.countP_cons, hb, hc, hl] <;>
          split_ifs <;>
            simp_all [symspi_switch_strict, symspi_is_closing,
              symspi_do_xfer, pushEvent, List.countP_cons]

/-- `symspi_try_leave_waiting_prev_sequence` leaves `raiseError` records
alone (it raises no errors itself). -/
theorem symspi_try_leave_waiting_prev_raises (d : Dev) :
    raisesOf (symspi_try_leave_waiting_prev_sequence d).2.events
      = raisesOf d.events := by
  unfold symspi_try_leave_waiting_prev_sequence
  by_cases hm : d.spi_master_mode <;>
    by_cases hrdy : d.hardware_spi_rdy <;>
      by_cases hclose : d.close_request <;>
        by_cases hs : d.state = SState.WaitingPrev <;>
          simp [symspi_switch_strict, symspi_is_closing, symspi_do_xfer,
            symspi_try_leave_waiting_rdy_sequence, symspi_is_their_request,
            symspi_their_flag_is_set, hm, hrdy, hclose, hs, pushEvent,
            raisesOf, isRaiseError, List.filter_cons] <;>
          split_ifs <;>
            simp [symspi_switch_strict, symspi_is_closing, symspi_do_xfer,
              pushEvent, raisesOf, isRaiseError, List.filter_cons]

/-- C6 (amended): the falling-edge dispatch increments the drop counter
with a 32-bit two's-complement add (the counter is a C `int`), giving
c = intWrap (old + 1), and then: if c = 1 and the device is master it
attempts to leave WAITING_PREV (ghost `tryLeaveWaitingPrevCall` event,
no error raised); if c ≥ 2 it raises OTHER_SIDE; and if c ≤ 0 — which
includes the wrap of old = INT_MAX to INT_MIN — it only emits a bare
error-log line, and no Logical (or any) error is raised. -/
theorem symspi_c6_drop_isr_dispatch (d : Dev) :
    (intWrap (d.their_flag_drop_counter + 1) = 1 → d.spi_master_mode = true →
      (symspi_their_flag_drop_isr_sequence d).events.countP
          isTryLeaveWaitingPrev
        = d.events.countP isTryLeaveWaitingPrev + 1
      ∧ raisesOf (symspi_their_flag_drop_isr_sequence d).events
        = raisesOf d.events)
    ∧ (2 ≤ intWrap (d.their_flag_drop_counter + 1) →
      raisesOf (symspi_their_flag_drop_isr_sequence d).events
        = Event.raiseError SYMSPI_ERROR_OTHER_SIDE 0 :: raisesOf d.events
      ∧ (symspi_their_flag_drop_isr_sequence d).their_flag_drop_counter
        = intWrap (d.their_flag_drop_counter + 1))
    ∧ (intWrap (d.their_flag_drop_counter + 1) ≤ 0 →
      raisesOf (symspi_their_flag_drop_isr_sequence d).events
        = raisesOf d.events
      ∧ (symspi_their_flag_drop_isr_sequence d).events.countP isErrLog
        = d.events.countP isErrLog + 1
      ∧ (symspi_their_flag_drop_isr_sequence d).their_flag_drop_counter
        = intWrap (d.their_flag_drop_counter + 1))
    ∧ (intWrap (d.their_flag_drop_counter + 1) = 1 → d.spi_master_mode = false →
      symspi_their_flag_drop_isr_sequence d
        = { d with their_flag_drop_counter := 1 }) := by
  refine ⟨?_, ?_, ?_, ?_⟩
  · intro hc hm
    unfold symspi_their_flag_drop_isr_sequence
    rw [hc]
    simp only [hm, and_self, if_true]
    constructor
    · rw [symspi_try_leave_waiting_prev_countP _ isTryLeaveWaitingPrev
        (by intro c; rfl) (by intro a b ok c; rfl) rfl]
      simp [isTryLeaveWaitingPrev]
    · exact symspi_try_leave_waiting_prev_raises _
  · intro hc
    have h1 : ¬(intWrap (d.their_flag_drop_counter + 1) = 1
        ∧ d.spi_master_mode = true) := by
      rintro ⟨h, -⟩
      omega
    unfold symspi_their_flag_drop_isr_sequence
    rw [if_neg (by simpa using h1), if_pos hc]
    exact ⟨symspi_error_handle_raises _ _ _,
      symspi_error_handle_drop_counter _ _ _⟩
  · intro hc
    have h1 : ¬(intWrap (d.their_flag_drop_counter + 1) = 1
        ∧ d.spi_master_mode = true) := by
      rintro ⟨h, -⟩
      omega
    have h2 : ¬(2 ≤ intWrap (d.their_flag_drop_counter + 1)) := by omega
    unfold symspi_their_flag_drop_isr_sequence
    rw [if_neg (by simpa using h1), if_neg h2, if_pos hc]
    simp [pushEvent, raisesOf, isRaiseError, isErrLog, List.filter_cons,
      List.countP_cons]
  · intro hc hm
    unfold symspi_their_flag_drop_isr_sequence
    rw [hc]
    simp [hm, show ¬((2:Int) ≤ 1) by omega, show ¬((1:Int) ≤ 0) by omega]

/-- Witness for the amended C6: a second falling edge within one cycle
(counter already 1) raises OTHER_SIDE. -/
theorem symspi_c6_drop_isr_dispatch_witness :
    raisesOf (symspi_their_flag_drop_isr_sequence idleDev).events
      = Event.raiseError SYMSPI_ERROR_OTHER_SIDE 0 :: raisesOf idleDev.events :=
  ((symspi_c6_drop_isr_dispatch idleDev).2.1 (by decide)).1

/-- C7 counterexample: in the ERROR state with force_size_change = false,
a valid non-overlapping replacement xfer of a different (non-zero) size
is rejected with XFER_SIZE_MISMATCH and the device is left unchanged —
the claim says the ERROR state allows the size change. -/
theorem symspi_c7_error_state_size_change_rejected :
    symspi_replace_xfer { idleDev with state := SState.Error }
        (mkXfer 32 90000 91000 5) false
      = (-(SYMSPI_ERROR_XFER_SIZE_MISMATCH : Int),
         { idleDev with state := SState.Error }) := by
  decide

/-- C7 (amended): for a replacement xfer with non-zero size, TX not
overlapping the current TX, and a size different from the current xfer's,
`symspi_replace_xfer` applies the size change exactly when the state is
XFER or `force_size_change` is true; otherwise — in particular in the
ERROR state without forcing — it fails with XFER_SIZE_MISMATCH and
changes nothing. -/
theorem symspi_c7_replace_xfer_size_gate (d : Dev) (nx : FullDuplexXfer)
    (hsz : nx.size_bytes ≠ 0)
    (hov : regions_overlap d.current_xfer.data_tx d.current_xfer.size_bytes
        nx.data_tx nx.size_bytes = false)
    (hdiff : d.current_xfer.size_bytes ≠ nx.size_bytes) :
    ∀ force : Bool,
      ((d.state = SState.Xfer ∨ force = true) →
        (symspi_replace_xfer d nx force).1 = 0
        ∧ (symspi_replace_xfer d nx force).2.current_xfer.size_bytes
            = nx.size_bytes)
      ∧ (d.state ≠ SState.Xfer → force = false →
        symspi_replace_xfer d nx force
          = (-(SYMSPI_ERROR_XFER_SIZE_MISMATCH : Int), d)) := by
  intro force
  constructor
  · intro hcase
    have hgate : ¬(d.current_xfer.size_bytes ≠ nx.size_bytes
        ∧ d.state ≠ SState.Xfer ∧ force = false) := by
      rcases hcase with h | h
      · rintro ⟨-, h2, -⟩
        exact h2 h
      · rintro ⟨-, -, h3⟩
        rw [h] at h3
        cases h3
    unfold symspi_replace_xfer
    rw [if_neg hsz, if_neg (by simp [hov]), if_neg hgate, if_pos hdiff]
    unfold symspi_do_resize_xfer
    rw [if_neg hdiff, if_neg hsz]
    simp [hsz, symspi_do_update_native_spi_xfer_data]
  · intro hstate hforce
    unfold symspi_replace_xfer
    rw [if_neg hsz, if_neg (by simp [hov]),
      if_pos ⟨hdiff, hstate, hforce⟩]

/-- Witness for the amended C7: the same replacement accepted in XFER
state. -/
theorem symspi_c7_replace_xfer_size_gate_witness :
    (symspi_replace_xfer { idleDev with state := SState.Xfer }
        (mkXfer 32 90000 91000 5) false).1 = 0
    ∧ (symspi_replace_xfer { idleDev with state := SState.Xfer }
        (mkXfer 32 90000 91000 5) false).2.current_xfer.size_bytes
      = (mkXfer 32 90000 91000 5).size_bytes :=
  (symspi_c7_replace_xfer_size_gate { idleDev with state := SState.Xfer }
    (mkXfer 32 90000 91000 5) (by decide) (by decide) (by decide) false).1
    (Or.inl rfl)

/-- C9 counterexample: once the first `symspi_close` has completed its
teardown (freeing the private part), a further close on the same device
returns NoDevice (-ENODEV), not AlreadyClosing (-EALREADY): the "every
subsequent call gets AlreadyClosing" reading of the claim fails. -/
theorem symspi_c9_close_after_teardown_enodev :
    (symspi_close idleOuter).1 = 0
    ∧ (symspi_close (symspi_close idleOuter).2).1 = -(ENODEV : Int)
    ∧ (symspi_close (symspi_close idleOuter).2).1 ≠ -(EALREADY : Int) := by
  decide

/-- C9 (amended): `symspi_close` latches the closing flag by a one-shot
CAS: the first call on a valid initialized (non-COLD) device latches and
runs the teardown to completion (private part freed); a call that
observes the latch already set while the private part still exists — an
overlapping closer — returns AlreadyClosing with no teardown step; and
once the private part is gone any further call returns NoDevice. -/
theorem symspi_c9_close_latch (o : SymspiOuter) (d : Dev)
    (hp : o.p = some d) (hmagic : d.magic = SYMSPI_PRIVATE_MAGIC) :
    (d.close_request = false → d.state ≠ SState.Cold →
      (symspi_close o).1 = 0 ∧ (symspi_close o).2.p = none)
    ∧ (d.close_request = true → symspi_close o = (-(EALREADY : Int), o))
    ∧ (∀ o2 : SymspiOuter, o2.p = none →
        symspi_close o2 = (-(ENODEV : Int), o2)) := by
  refine ⟨?_, ?_, ?_⟩
  · intro hcl hcold
    unfold symspi_close
    rw [hp]
    simp [hmagic, hcl, hcold]
  · intro hcl
    unfold symspi_close
    rw [hp]
    simp [hmagic, hcl]
  · intro o2 hp2
    unfold symspi_close
    rw [hp2]

/-- Witness for the amended C9: first close succeeds and frees, an
overlapping closer is turned away with -EALREADY. -/
theorem symspi_c9_close_latch_witness :
    ((symspi_close idleOuter).1 = 0 ∧ (symspi_close idleOuter).2.p = none)
    ∧ symspi_close
        { idleOuter with p := some { idleDev with close_request := true } }
      = (-(EALREADY : Int),
         { idleOuter with p := some { idleDev with close_request := true } }) :=
  ⟨(symspi_c9_close_latch idleOuter idleDev rfl rfl).1 rfl (by decide),
   (symspi_c9_close_latch
      { idleOuter with p := some { idleDev with close_request := true } }
      { idleDev with close_request := true } rfl rfl).2.1 rfl⟩

/-- C10 (implicit claim): `symspi_init` on a device whose private part
already exists and carries the valid magic returns success immediately
and modifies nothing — a second init after a successful init is a no-op,
not an error.  (The consumer-input validation that precedes the magic
check passes for a valid device and default xfer.) -/
theorem symspi_c10_reinit_noop (o : SymspiOuter) (d : Dev)
    (dx : FullDuplexXfer) (hp : o.p = some d)
    (hmagic : d.magic = SYMSPI_PRIVATE_MAGIC)
    (hspi : o.has_spi = true) (hgo : o.has_gpio_our = true)
    (hgt : o.has_gpio_their = true)
    (hsz : dx.size_bytes ≠ 0) (htx : dx.data_tx ≠ 0) :
    ∀ (master rdy tf ok : Bool) (now : Nat),
      symspi_init o (some dx) master rdy tf ok now = (0, o) := by
  intro master rdy tf ok now
  unfold symspi_init symspi_verify_consumer_input
  rw [hp]
  simp [hmagic, hspi, hgo, hgt, hsz, htx]

/-- Witness for C10 at a concrete initialized device. -/
theorem symspi_c10_reinit_noop_witness :
    symspi_init idleOuter (some (mkXfer 64 90000 91000 0)) true true false
        true 0
      = (0, idleOuter) :=
  symspi_c10_reinit_noop idleOuter idleDev (mkXfer 64 90000 91000 0) rfl rfl
    rfl rfl rfl (by decide) (by decide) true true false true 0

/- Drop-counter bookkeeping lemmas for the C8 invariant. -/

/-- `symspi_try_to_error_sequence` never touches the drop counter. -/
@[simp] theorem symspi_try_to_error_drop (d : Dev) (i : Int) :
    (symspi_try_to_error_sequence d i).2.their_flag_drop_counter
      = d.their_flag_drop_counter := by
  simp only [symspi_try_to_error_sequence]
  split
  · simp [symspi_error_handle_drop_counter]
  · rfl

/-- `symspi_do_xfer` zeroes the drop counter. -/
@[simp] theorem symspi_do_xfer_drop (d : Dev) :
    (symspi_do_xfer d).2.their_flag_drop_counter = 0 := by
  simp [symspi_do_xfer, pushEvent]

/-- `symspi_replace_xfer` never touches the drop counter. -/
@[simp] theorem symspi_replace_xfer_drop (d : Dev) (x : FullDuplexXfer)
    (f : Bool) :
    (symspi_replace_xfer d x f).2.their_flag_drop_counter
      = d.their_flag_drop_counter := by
  simp only [symspi_replace_xfer, symspi_do_update_native_spi_xfer_data]
  split_ifs <;> rfl


/-- `symspi_get_next_xfer_id` never touches the drop counter. -/
@[simp] theorem symspi_get_next_xfer_id_drop (d : Dev) :
    (symspi_get_next_xfer_id d).2.their_flag_drop_counter
      = d.their_flag_drop_counter := by
  simp only [symspi_get_next_xfer_id]
  split_ifs <;> rfl

/-- After `symspi_try_leave_waiting_rdy_sequence` the drop counter is 0
(bus submitted) or untouched. -/
theorem symspi_try_leave_waiting_rdy_drop (d : Dev) :
    (symspi_try_leave_waiting_rdy_sequence d).2.their_flag_drop_counter = 0
    ∨ (symspi_try_leave_waiting_rdy_sequence d).2.their_flag_drop_counter
        = d.their_flag_drop_counter := by
  unfold symspi_try_leave_waiting_rdy_sequence
  rcases h : symspi_switch_strict d SState.WaitingRdy SState.Xfer with ⟨ok, d2⟩
  have hd2 : d2.their_flag_drop_counter = d.their_flag_drop_counter := by
    have := symspi_switch_strict_their_flag_drop_counter d SState.WaitingRdy
      SState.Xfer
    rw [h] at this
    exact this
  cases ok <;> simp [hd2]

/-- After `symspi_try_leave_waiting_prev_sequence` the drop counter is 0
or untouched. -/
theorem symspi_try_leave_waiting_prev_drop (d : Dev) :
    (symspi_try_leave_waiting_prev_sequence d).2.their_flag_drop_counter = 0
    ∨ (symspi_try_leave_waiting_prev_sequence d).2.their_flag_drop_counter
        = d.their_flag_drop_counter := by
  unfold symspi_try_leave_waiting_prev_sequence
  by_cases hm : d.spi_master_mode <;>
    by_cases hrdy : d.hardware_spi_rdy <;>
      by_cases hclose : d.close_request <;>
        by_cases hs : d.state = SState.WaitingPrev <;>
          simp [symspi_switch_strict, symspi_is_closing, hm, hrdy, hclose,
            hs, pushEvent, symspi_is_their_request, symspi_their_flag_is_set,
            symspi_try_leave_waiting_rdy_sequence] <;>
          split_ifs <;>
            simp_all [symspi_switch_strict, symspi_is_closing, pushEvent]

/-- After `symspi_xfer_prepare_to_waiting_prev_sequence` the drop counter
is 0 or untouched. -/
theorem symspi_xfer_prepare_to_waiting_prev_drop (d : Dev) :
    (symspi_xfer_prepare_to_waiting_prev_sequence
        d).2.their_flag_drop_counter = 0
    ∨ (symspi_xfer_prepare_to_waiting_prev_sequence
        d).2.their_flag_drop_counter = d.their_flag_drop_counter := by
  have key : ∀ dv : Dev,
      dv.their_flag_drop_counter = d.their_flag_drop_counter →
      (symspi_try_leave_waiting_prev_sequence dv).2.their_flag_drop_counter
          = 0
      ∨ (symspi_try_leave_waiting_prev_sequence dv).2.their_flag_drop_counter
          = d.their_flag_drop_counter := by
    intro dv hdv
    rcases symspi_try_leave_waiting_prev_drop dv with h | h
    · exact Or.inl h
    · exact Or.inr (h.trans hdv)
  simp only [symspi_xfer_prepare_to_waiting_prev_sequence, symspi_our_flag_set]
  split_ifs <;>
    first
      | (right; simp; done)
      | (apply key; simp)

/-- Chaining step for drop-counter dichotomies: a value that is zero or
equal to an intermediate value that is itself zero or the base value is
zero or the base value. -/
theorem drop_chain {y x base : Int} (hy : y = 0 ∨ y = x)
    (hx : x = 0 ∨ x = base) : y = 0 ∨ y = base := by
  rcases hx with h | h <;> rcases hy with h' | h' <;> simp_all

/-- The NULL-xfer restart entry leaves the drop counter at 0 or
untouched. -/
theorem symspi_data_xchange_null_drop (d : Dev) :
    (symspi_data_xchange_null d).2.their_flag_drop_counter = 0
    ∨ (symspi_data_xchange_null d).2.their_flag_drop_counter
        = d.their_flag_drop_counter := by
  have key : ∀ dv : Dev,
      (dv.their_flag_drop_counter = 0
        ∨ dv.their_flag_drop_counter = d.their_flag_drop_counter) →
      (symspi_xfer_prepare_to_waiting_prev_sequence
          dv).2.their_flag_drop_counter = 0
      ∨ (symspi_xfer_prepare_to_waiting_prev_sequence
          dv).2.their_flag_drop_counter = d.their_flag_drop_counter :=
    fun dv h =>
      drop_chain (symspi_xfer_prepare_to_waiting_prev_drop dv) h
  simp only [symspi_data_xchange_null]
  split_ifs <;>
    first
      | (right; simp; done)
      | (apply key; simp)

/-- `symspi_to_idle_sequence` leaves the drop counter at 0 or
untouched. -/
theorem symspi_to_idle_sequence_drop (d : Dev) (os : SState) (sn : Bool)
    (ie : Int) :
    (symspi_to_idle_sequence d os sn ie).2.their_flag_drop_counter = 0
    ∨ (symspi_to_idle_sequence d os sn ie).2.their_flag_drop_counter
        = d.their_flag_drop_counter := by
  have key : ∀ dv : Dev,
      (dv.their_flag_drop_counter = 0
        ∨ dv.their_flag_drop_counter = d.their_flag_drop_counter) →
      (symspi_data_xchange_null dv).2.their_flag_drop_counter = 0
      ∨ (symspi_data_xchange_null dv).2.their_flag_drop_counter
          = d.their_flag_drop_counter :=
    fun dv h => drop_chain (symspi_data_xchange_null_drop dv) h
  simp only [symspi_to_idle_sequence]
  split_ifs <;>
    first
      | (right; simp; done)
      | (apply key; simp)

/-- `symspi_update_xfer_sequence` leaves the drop counter at 0 or
untouched. -/
theorem symspi_update_xfer_sequence_drop (d : Dev)
    (xfer : Option FullDuplexXfer) (os : SState) (f : Bool) :
    (symspi_update_xfer_sequence d xfer os
        f).2.1.their_flag_drop_counter = 0
    ∨ (symspi_update_xfer_sequence d xfer os
        f).2.1.their_flag_drop_counter = d.their_flag_drop_counter := by
  have key : ∀ (dv : Dev) (ie : Int),
      (dv.their_flag_drop_counter = 0
        ∨ dv.their_flag_drop_counter = d.their_flag_drop_counter) →
      (symspi_to_idle_sequence dv os false ie).2.their_flag_drop_counter
          = 0
      ∨ (symspi_to_idle_sequence dv os false
          ie).2.their_flag_drop_counter = d.their_flag_drop_counter :=
    fun dv ie h => drop_chain (symspi_to_idle_sequence_drop dv os false ie) h
  rcases xfer with _ | x
  · right; simp [symspi_update_xfer_sequence]
  · simp only [symspi_update_xfer_sequence]
    split_ifs <;>
      first
        | (right; simp; done)
        | (apply key; simp)

/-- `symspi_update_xfer_sequence` with original state ERROR never touches
the drop counter (the failure path skips the to-idle detour there). -/
theorem symspi_update_xfer_sequence_drop_error (d : Dev)
    (xfer : Option FullDuplexXfer) (f : Bool) :
    (symspi_update_xfer_sequence d xfer SState.Error
        f).2.1.their_flag_drop_counter = d.their_flag_drop_counter := by
  rcases xfer with _ | x
  · simp [symspi_update_xfer_sequence]
  · simp only [symspi_update_xfer_sequence]
    split_ifs <;> simp_all

/-- `symspi_idle_to_xfer_prepare_sequence` leaves the drop counter at 0
or untouched. -/
theorem symspi_idle_to_xfer_prepare_drop (d : Dev)
    (xfer : Option FullDuplexXfer) (f : Bool) :
    (symspi_idle_to_xfer_prepare_sequence d xfer
        f).2.1.their_flag_drop_counter = 0
    ∨ (symspi_idle_to_xfer_prepare_sequence d xfer
        f).2.1.their_flag_drop_counter = d.their_flag_drop_counter := by
  have key : ∀ dv : Dev,
      (dv.their_flag_drop_counter = 0
        ∨ dv.their_flag_drop_counter = d.their_flag_drop_counter) →
      (symspi_update_xfer_sequence dv xfer SState.XferPrepare
          f).2.1.their_flag_drop_counter = 0
      ∨ (symspi_update_xfer_sequence dv xfer SState.XferPrepare
          f).2.1.their_flag_drop_counter = d.their_flag_drop_counter :=
    fun dv h =>
      drop_chain
        (symspi_update_xfer_sequence_drop dv xfer SState.XferPrepare f) h
  simp only [symspi_idle_to_xfer_prepare_sequence]
  split_ifs <;>
    first
      | (right; simp; done)
      | (apply key; simp)

/-- `symspi_data_xchange` leaves the drop counter at 0 or untouched. -/
theorem symspi_data_xchange_drop (d : Dev)
    (xfer : Option FullDuplexXfer) (f : Bool) :
    (symspi_data_xchange d xfer f).2.their_flag_drop_counter = 0
    ∨ (symspi_data_xchange d xfer f).2.their_flag_drop_counter
        = d.their_flag_drop_counter := by
  have hI := symspi_idle_to_xfer_prepare_drop d xfer f
  have hP :=
    drop_chain
      (symspi_xfer_prepare_to_waiting_prev_drop
        (symspi_idle_to_xfer_prepare_sequence d xfer f).2.1) hI
  simp only [symspi_data_xchange]
  split_ifs <;>
    first
      | (right; simp; done)
      | (simpa using hI)
      | (simpa using hP)
      | (split <;> split_ifs <;> simpa using hP)
      | (split <;> simpa using hP)

/-- `symspi_default_data_update` leaves the drop counter at 0 or
untouched. -/
theorem symspi_default_data_update_drop (d : Dev)
    (xfer : Option FullDuplexXfer) (f : Bool) :
    (symspi_default_data_update d xfer f).2.their_flag_drop_counter = 0
    ∨ (symspi_default_data_update d xfer f).2.their_flag_drop_counter
        = d.their_flag_drop_counter := by
  have hI := symspi_idle_to_xfer_prepare_drop d xfer f
  have hT :=
    drop_chain
      (symspi_to_idle_sequence_drop
        (symspi_idle_to_xfer_prepare_sequence d xfer f).2.1
        SState.XferPrepare false 0) hI
  simp only [symspi_default_data_update]
  split_ifs <;>
    first
      | (right; simp; done)
      | (simpa using hI)
      | (simpa using hT)

/-- `symspi_postprocessing_sequence` leaves the drop counter at 0 or
untouched. -/
theorem symspi_postprocessing_sequence_drop (d : Dev)
    (cb : ConsumerCbResult) (si : Bool) :
    (symspi_postprocessing_sequence d cb si).their_flag_drop_counter = 0
    ∨ (symspi_postprocessing_sequence d cb si).their_flag_drop_counter
        = d.their_flag_drop_counter := by
  have keyU : ∀ (dv : Dev) (x : FullDuplexXfer),
      (dv.their_flag_drop_counter = 0
        ∨ dv.their_flag_drop_counter = d.their_flag_drop_counter) →
      (symspi_update_xfer_sequence dv (some x) SState.Postprocessing
          true).2.1.their_flag_drop_counter = 0
      ∨ (symspi_update_xfer_sequence dv (some x) SState.Postprocessing
          true).2.1.their_flag_drop_counter = d.their_flag_drop_counter :=
    fun dv x h =>
      drop_chain
        (symspi_update_xfer_sequence_drop dv (some x)
          SState.Postprocessing true) h
  have keyT : ∀ (dv : Dev) (sn : Bool),
      (dv.their_flag_drop_counter = 0
        ∨ dv.their_flag_drop_counter = d.their_flag_drop_counter) →
      (symspi_to_idle_sequence dv SState.Postprocessing sn
          0).2.their_flag_drop_counter = 0
      ∨ (symspi_to_idle_sequence dv SState.Postprocessing sn
          0).2.their_flag_drop_counter = d.their_flag_drop_counter :=
    fun dv sn h =>
      drop_chain
        (symspi_to_idle_sequence_drop dv SState.Postprocessing sn 0) h
  rcases cb with _ | x | _ <;>
    by_cases hdc : d.current_xfer.has_done_callback <;>
      by_cases hs : d.state = SState.Postprocessing <;>
        simp [symspi_postprocessing_sequence,
          symspi_inc_current_xfer_counter, symspi_our_flag_drop, hdc,
          hs] <;>
        split_ifs <;>
          first
            | (right; simp; done)
            | (apply keyU; right; simp; done)
            | (apply keyT; first
                | (right; simp; done)
                | (apply keyU; right; simp; done))

/-- A recovery run on a valid device in ERROR either aborts with the
drop counter untouched or funnels through `symspi_to_idle_sequence`
(the ERROR to IDLE transition with immediate restart) from an
intermediate device whose drop counter was just set to 1 and whose
pending `last_error` was cleared. -/
theorem symspi_recovery_finish_decomposition (d : Dev)
    (cb : ConsumerCbResult)
    (hm : d.magic = SYMSPI_PRIVATE_MAGIC) (hs : d.state = SState.Error) :
    (∃ dmid : Dev, dmid.their_flag_drop_counter = 1
       ∧ dmid.last_error = SYMSPI_SUCCESS
       ∧ symspi_recovery_sequence d cb
           = symspi_to_idle_sequence dmid SState.Error true 0)
    ∨ (symspi_recovery_sequence d cb).2.their_flag_drop_counter
        = d.their_flag_drop_counter := by
  rcases cb with _ | x | _ <;>
    by_cases hf : d.current_xfer.has_fail_callback <;>
      simp only [symspi_recovery_sequence, symspi_our_flag_set,
        symspi_our_flag_drop, hm, hs, hf, ne_eq, not_true_eq_false,
        Bool.false_eq_true, if_false, ite_false, ite_true] <;>
      first
        | (right; simp; done)
        | (left; exact ⟨_, rfl, rfl, rfl⟩)
        | (split_ifs <;>
            first
              | (right;
                 simp [symspi_update_xfer_sequence_drop_error]; done)
              | (left; exact ⟨_, rfl, rfl, rfl⟩))

/-- `symspi_recovery_sequence` preserves non-negativity of the drop
counter. -/
theorem symspi_recovery_sequence_nonneg (d : Dev)
    (cb : ConsumerCbResult) (h : 0 ≤ d.their_flag_drop_counter) :
    0 ≤ (symspi_recovery_sequence d cb).2.their_flag_drop_counter := by
  by_cases hm : d.magic = SYMSPI_PRIVATE_MAGIC
  · by_cases hs : d.state = SState.Error
    · rcases symspi_recovery_finish_decomposition d cb hm hs with
        ⟨dmid, h1, _, heq⟩ | hsame
      · rw [heq]
        rcases symspi_to_idle_sequence_drop dmid SState.Error true 0 with
          h' | h' <;> omega
      · omega
    · have hid : (symspi_recovery_sequence d cb).2 = d := by
        simp [symspi_recovery_sequence, hm, hs]
      rw [hid]; exact h
  · have hid : (symspi_recovery_sequence d cb).2 = d := by
      simp [symspi_recovery_sequence, hm]
    rw [hid]; exact h

/-- The SPI completion callback never touches the drop counter. -/
theorem symspi_spi_xfer_done_callback_drop (d : Dev) :
    (symspi_spi_xfer_done_callback d).their_flag_drop_counter
      = d.their_flag_drop_counter := by
  simp only [symspi_spi_xfer_done_callback]
  split_ifs <;>
    simp [symspi_error_handle_drop_counter, pushEvent]

/-- The rising-edge ISR sequence leaves the drop counter at 0 or
untouched. -/
theorem symspi_their_flag_set_isr_drop (d : Dev) :
    (symspi_their_flag_set_isr_sequence d).their_flag_drop_counter = 0
    ∨ (symspi_their_flag_set_isr_sequence d).their_flag_drop_counter
        = d.their_flag_drop_counter := by
  have keyP : ∀ dv : Dev,
      (dv.their_flag_drop_counter = 0
        ∨ dv.their_flag_drop_counter = d.their_flag_drop_counter) →
      (symspi_xfer_prepare_to_waiting_prev_sequence
          dv).2.their_flag_drop_counter = 0
      ∨ (symspi_xfer_prepare_to_waiting_prev_sequence
          dv).2.their_flag_drop_counter = d.their_flag_drop_counter :=
    fun dv h =>
      drop_chain (symspi_xfer_prepare_to_waiting_prev_drop dv) h
  have keyR : ∀ dv : Dev,
      (dv.their_flag_drop_counter = 0
        ∨ dv.their_flag_drop_counter = d.their_flag_drop_counter) →
      (symspi_try_leave_waiting_rdy_sequence
          dv).2.their_flag_drop_counter = 0
      ∨ (symspi_try_leave_waiting_rdy_sequence
          dv).2.their_flag_drop_counter = d.their_flag_drop_counter :=
    fun dv h => drop_chain (symspi_try_leave_waiting_rdy_drop dv) h
  simp only [symspi_their_flag_set_isr_sequence]
  split_ifs <;>
    first
      | (right; simp; done)
      | (apply keyP; simp)
      | (apply keyR; simp)

/-- The falling-edge ISR sequence leaves the drop counter at 0 or at the
incremented value old + 1: the increment is the only way the counter ever
grows, and it never drives a non-negative counter negative. -/
theorem symspi_their_flag_drop_isr_drop (d : Dev) :
    (symspi_their_flag_drop_isr_sequence d).their_flag_drop_counter = 0
    ∨ (symspi_their_flag_drop_isr_sequence d).their_flag_drop_counter
        = intWrap (d.their_flag_drop_counter + 1) := by
  have key : ∀ dv : Dev,
      (dv.their_flag_drop_counter = 0
        ∨ dv.their_flag_drop_counter
            = intWrap (d.their_flag_drop_counter + 1)) →
      (symspi_try_leave_waiting_prev_sequence
          dv).2.their_flag_drop_counter = 0
      ∨ (symspi_try_leave_waiting_prev_sequence
          dv).2.their_flag_drop_counter
          = intWrap (d.their_flag_drop_counter + 1) :=
    fun dv h => drop_chain (symspi_try_leave_waiting_prev_drop dv) h
  simp only [symspi_their_flag_drop_isr_sequence]
  split_ifs <;>
    first
      | (right; simp [symspi_error_handle_drop_counter, pushEvent]; done)
      | (apply key; simp)

/-- The edge ISR preserves non-negativity of the drop counter as long as
the counter is below INT_MAX (at INT_MAX the falling-edge increment
wraps to INT_MIN). -/
theorem symspi_their_flag_isr_nonneg (d : Dev)
    (h : 0 ≤ d.their_flag_drop_counter)
    (hmax : d.their_flag_drop_counter < 2 ^ 31 - 1) :
    0 ≤ (symspi_their_flag_isr d).their_flag_drop_counter := by
  simp only [symspi_their_flag_isr]
  split_ifs
  · exact h
  · show 0 ≤ (symspi_their_flag_set_isr_sequence d).their_flag_drop_counter
    rcases symspi_their_flag_set_isr_drop d with h' | h' <;> omega
  · show 0 ≤ (symspi_their_flag_drop_isr_sequence d).their_flag_drop_counter
    rcases symspi_their_flag_drop_isr_drop d with h' | h' <;>
      (try simp only [intWrap] at h') <;> omega

/-- The other-side wait timeout handler never touches the drop
counter. -/
theorem symspi_other_side_wait_timeout_drop (d : Dev) :
    (symspi_other_side_wait_timeout d).their_flag_drop_counter
      = d.their_flag_drop_counter := by
  simp only [symspi_other_side_wait_timeout]
  split_ifs <;> simp [symspi_error_handle_drop_counter]

/-- C8 counterexample: "never assigned a negative value" fails.  The
falling-edge ISR's increment is a 32-bit two's-complement add on a C
`int`: at the representable counter value INT_MAX = 2^31 - 1 the
dispatch assigns INT_MIN = -2^31 — a negative value — to the drop
counter. -/
theorem symspi_c8_intmax_wrap_counterexample :
    (symspi_their_flag_drop_isr_sequence
        { idleDev with their_flag_drop_counter := 2 ^ 31 - 1
          }).their_flag_drop_counter = -(2 ^ 31)
    ∧ (symspi_their_flag_drop_isr_sequence
        { idleDev with their_flag_drop_counter := 2 ^ 31 - 1
          }).their_flag_drop_counter < 0 := by
  refine ⟨by decide, by decide⟩

/-- C8 (amended): the drop-counter discipline.  (a) `symspi_do_xfer` —
the single bus-submission point, wrapping `spi_async` — zeroes the drop
counter right before submitting, and the submission record carries
counter value 0; (b) a first `symspi_init` on a handle with no private
part, with the peer flag inactive, completes with the counter set to 1;
(c) a recovery run on a valid device in ERROR either aborts with the
counter untouched or funnels through the ERROR to IDLE transition
(`symspi_to_idle_sequence` with immediate restart) from an intermediate
device whose counter was just set to 1; (d) every entry point other than
the edge ISR — consumer exchange, default-data update, the SPI
completion callback, the postprocessing work, the recovery work, the
wait timeout — preserves a non-negative counter, and the edge ISR
preserves it as long as the counter is below INT_MAX: at exactly INT_MAX
its two's-complement increment wraps the counter to the negative INT_MIN
(the counterexample), which is the one exception to the claimed "never
negative" invariant. -/
theorem symspi_c8_drop_counter_discipline
    (d : Dev) (xfer : Option FullDuplexXfer) (force si : Bool)
    (cbd cbf : ConsumerCbResult)
    (o : SymspiOuter) (dx : FullDuplexXfer)
    (m hw acc : Bool) (now : Nat)
    (hd : 0 ≤ d.their_flag_drop_counter) (ho : o.p = none) :
    (symspi_do_xfer d).2.their_flag_drop_counter = 0
    ∧ (symspi_do_xfer d).2.events = Event.busSubmit 0 :: d.events
    ∧ (∀ d' : Dev,
        (symspi_init o (some dx) m hw false acc now).2.p = some d' →
        d'.their_flag_drop_counter = 1)
    ∧ (d.magic = SYMSPI_PRIVATE_MAGIC → d.state = SState.Error →
        (∃ dmid : Dev, dmid.their_flag_drop_counter = 1
           ∧ dmid.last_error = SYMSPI_SUCCESS
           ∧ symspi_recovery_sequence d cbf
               = symspi_to_idle_sequence dmid SState.Error true 0)
        ∨ (symspi_recovery_sequence d cbf).2.their_flag_drop_counter
            = d.their_flag_drop_counter)
    ∧ 0 ≤ (symspi_data_xchange d xfer force).2.their_flag_drop_counter
    ∧ 0 ≤ (symspi_default_data_update d xfer
            force).2.their_flag_drop_counter
    ∧ 0 ≤ (symspi_spi_xfer_done_callback d).their_flag_drop_counter
    ∧ (d.their_flag_drop_counter < 2 ^ 31 - 1 →
        0 ≤ (symspi_their_flag_isr d).their_flag_drop_counter)
    ∧ 0 ≤ (symspi_postprocessing_sequence d cbd
            si).their_flag_drop_counter
    ∧ 0 ≤ (symspi_recovery_sequence d cbf).2.their_flag_drop_counter
    ∧ 0 ≤ (symspi_other_side_wait_timeout d).their_flag_drop_counter := by
  refine ⟨rfl, rfl, ?_, ?_, ?_, ?_, ?_, ?_, ?_, ?_, ?_⟩
  · intro d' hd'
    simp [symspi_init, ho, symspi_their_flag_is_set] at hd'
    split_ifs at hd' with h1
    · simp at hd'
      subst hd'
      rfl
    · rw [ho] at hd'
      simp at hd'
  · exact fun hm hs => symspi_recovery_finish_decomposition d cbf hm hs
  · rcases symspi_data_xchange_drop d xfer force with h' | h' <;> omega
  · rcases symspi_default_data_update_drop d xfer force with h' | h' <;>
      omega
  · rw [symspi_spi_xfer_done_callback_drop]; exact hd
  · exact fun hmax => symspi_their_flag_isr_nonneg d hd hmax
  · rcases symspi_postprocessing_sequence_drop d cbd si with h' | h' <;>
      omega
  · exact symspi_recovery_sequence_nonneg d cbf hd
  · rw [symspi_other_side_wait_timeout_drop]; exact hd

/-- Witness for C8: the healthy idle master device, a fresh consumer
handle, a NULL exchange request and keep-callbacks. -/
theorem symspi_c8_drop_counter_discipline_witness :
    (0 ≤ idleDev.their_flag_drop_counter ∧ freshOuter.p = none)
    ∧ ((symspi_do_xfer idleDev).2.their_flag_drop_counter = 0
    ∧ (symspi_do_xfer idleDev).2.events
        = Event.busSubmit 0 :: idleDev.events
    ∧ (∀ d' : Dev,
        (symspi_init freshOuter (some (mkXfer 64 4096 8192 1)) true true
            false true 0).2.p = some d' →
        d'.their_flag_drop_counter = 1)
    ∧ (idleDev.magic = SYMSPI_PRIVATE_MAGIC →
        idleDev.state = SState.Error →
        (∃ dmid : Dev, dmid.their_flag_drop_counter = 1
           ∧ dmid.last_error = SYMSPI_SUCCESS
           ∧ symspi_recovery_sequence idleDev ConsumerCbResult.keep
               = symspi_to_idle_sequence dmid SState.Error true 0)
        ∨ (symspi_recovery_sequence idleDev
            ConsumerCbResult.keep).2.their_flag_drop_counter
            = idleDev.their_flag_drop_counter)
    ∧ 0 ≤ (symspi_data_xchange idleDev none
            false).2.their_flag_drop_counter
    ∧ 0 ≤ (symspi_default_data_update idleDev none
            false).2.their_flag_drop_counter
    ∧ 0 ≤ (symspi_spi_xfer_done_callback
            idleDev).their_flag_drop_counter
    ∧ (idleDev.their_flag_drop_counter < 2 ^ 31 - 1 →
        0 ≤ (symspi_their_flag_isr idleDev).their_flag_drop_counter)
    ∧ 0 ≤ (symspi_postprocessing_sequence idleDev ConsumerCbResult.keep
            false).their_flag_drop_counter
    ∧ 0 ≤ (symspi_recovery_sequence idleDev
            ConsumerCbResult.keep).2.their_flag_drop_counter
    ∧ 0 ≤ (symspi_other_side_wait_timeout
            idleDev).their_flag_drop_counter) :=
  ⟨⟨by decide, by decide⟩,
   symspi_c8_drop_counter_discipline idleDev none false false
     ConsumerCbResult.keep ConsumerCbResult.keep freshOuter
     (mkXfer 64 4096 8192 1) true true true 0 (by decide) (by decide)⟩

/-- C1: counterexample to the claim that a size mismatch makes
`symspi_data_xchange` fail with `SYMSPI_ERROR_XFER_SIZE_MISMATCH`: a healthy
device in IDLE with a 64-byte current xfer, a new xfer of size 1
(non-overlapping TX) and force_size_change = false.  `symspi_replace_xfer`
produces -XFER_SIZE_MISMATCH internally, but `symspi_update_xfer_sequence`
downgrades it to SUCCESS before returning, so the call returns the freshly
assigned positive xfer id 2 instead of the XferSizeMismatch error, while
the requested size was never applied (current xfer still 64 bytes) and our
flag is left asserted.  The state does return to IDLE. -/
theorem symspi_c1_size_mismatch_swallowed :
    (symspi_data_xchange idleDev (some (mkXfer 1 90000 91000 0)) false).1
      = 2
    ∧ (symspi_data_xchange idleDev (some (mkXfer 1 90000 91000 0)) false).1
      ≠ -(SYMSPI_ERROR_XFER_SIZE_MISMATCH : Int)
    ∧ (symspi_data_xchange idleDev (some (mkXfer 1 90000 91000 0))
        false).2.current_xfer.size_bytes = 64
    ∧ (symspi_data_xchange idleDev (some (mkXfer 1 90000 91000 0))
        false).2.state = SState.Idle
    ∧ (symspi_data_xchange idleDev (some (mkXfer 1 90000 91000 0))
        false).2.our_flag = true := by
  refine ⟨by decide, by decide, by decide, by decide, by decide⟩

end Symspi
